import Mathlib

/-!
Shallow embedding of `bench/bench.py` from Jokeren/caffe2-tvm-samples:
a sweep-build-execute-validate benchmarking driver for TVM convolutions.

External collaborators (TVM/topi operators and schedules, the RPC remote,
numpy arrays, and the helper modules `utils`, `workloads`, `data_type`,
`correctness` that are not part of the benchmarked file) are modelled as
parameters: fallible external calls are fields of type `Except String _`
(a Python call that either returns or raises), pure external helpers are
function-valued fields.  The driver's observable behaviour is a trace of
`Event`s (prints, external calls, buffer allocations), and an uncaught
Python exception is an `Option String` escaping a function.
-/

namespace Caffe2TvmBench

/-- One convolution workload, mirroring the accessors `space()`,
`input_channel()`, `output_channel()`, `kernel()`, `pad()`, `stride()`,
`warmup()`, `run()`, `depthwise()` used by `bench_tvm`. -/
structure Workload where
  space : Nat
  input_channel : Nat
  output_channel : Nat
  kernel : Nat
  pad : Nat
  stride : Nat
  warmupCount : Nat
  runCount : Nat
  depthwise : Bool
deriving DecidableEq

/-- The dtype object produced by `data_type.get_data_type`: it exposes
`tvm_type()` and `np_type()` strings. -/
structure DataType where
  tvm_type : String
  np_type : String
deriving DecidableEq

/-- A symbolic TVM tensor (placeholder or operator result): a shape and a
dtype string, as used by `tvm.placeholder` and the `topi` constructors. -/
structure Tensor where
  shape : List Nat
  dtype : String
deriving DecidableEq

/-- Where a device buffer's initial contents came from: the n-th draw of
`np.random.random` in program order, or `np.zeros`. -/
inductive BufData
  | random (gen : Nat)
  | zeros
deriving DecidableEq

/-- A device array created by `tvm.nd.array`: initial data source, numpy
dtype string, and shape. -/
structure NDArray where
  data : BufData
  dtype : String
  shape : List Nat
deriving DecidableEq

/-- One printed log line, one constructor per `format` string in the source,
carrying exactly the fields that appear in that format string.  The first
argument is the phase label before the `--` separator (the schedule-skip
format string hardcodes the literal text `standard` there). -/
inductive LogLine
  | buildFail (label target dtype layout : String) (stride pad : Nat)
      (input_shape filter_shape : List Nat)
  | success (label target dtype layout : String) (stride pad : Nat)
      (input_shape filter_shape : List Nat) (ops cost : Nat)
  | scheduleSkip (label target dtype layout : String)
      (input_shape filter_shape : List Nat)
  | runSkip (label target dtype layout : String)
      (input_shape filter_shape : List Nat)
deriving DecidableEq

/-- An opaque schedule handle returned by the `topi.generic.schedule_*`
routines. -/
structure Sched where
  id : Nat
deriving DecidableEq

/-- Observable events of one driver run, in program order. -/
inductive Event
  | benchCall (tgt dtypeName layout workloadSet schedule : String)
  | workloadStart (idx : Nat)
  | randomGen (gen : Nat)
  | applyHistoryBest (logName : String)
  | scheduleConstruct (histActive : Bool)
  | bindBuffers (idx : Nat) (input filter output : NDArray)
  | buildStep (histActive : Bool) (fname : String)
  | exportStep (soName : String)
  | uploadStep (soName : String)
  | loadStep (soName : String)
  | invoke (input filter output : NDArray)
  | timeEval (number : Nat)
  | correctness (input_channel output_channel kernel stride pad : Nat)
      (input filter output : NDArray) (dtype order : String) (depthwise : Bool)
  | printExc (msg : String)
  | printLine (l : LogLine)
deriving DecidableEq

/-- The `topi` operator/schedule constructors consumed by `get_conv_ts`.
They are external TVM code; each may raise (e.g. the generic schedules
raise for templates the target does not implement). -/
structure Topi where
  conv2d : Tensor → Tensor → Nat → Nat → String → String → Except String Tensor
  schedule_conv2d_nchw : Tensor → Except String Sched
  schedule_conv2d_nhwc : Tensor → Except String Sched
  schedule_conv2d_hwcn : Tensor → Except String Sched
  depthwise_conv2d_nchw : Tensor → Tensor → Nat → Nat → String → Except String Tensor
  depthwise_conv2d_nhwc : Tensor → Tensor → Nat → Nat → String → Except String Tensor
  depthwise_conv2d_hwcn : Tensor → Tensor → Nat → Nat → String → Except String Tensor
  schedule_depthwise_conv2d_nchw : Tensor → Except String Sched
  schedule_depthwise_conv2d_nhwc : Tensor → Except String Sched
  schedule_depthwise_conv2d_hwcn : Tensor → Except String Sched

/-- Embedding of `get_conv_ts` (bench.py lines 109-155).  The output dtype
is promoted to `int32` exactly when the input tvm type is `int8`; the six
(layout × depthwise) cases dispatch to the corresponding topi constructor
and generic schedule.  A layout string outside NCHW/NHWC/HWCN leaves the
local `ts` (and, in the depthwise branch, `conv`) unassigned, so the
`return conv, ts` raises UnboundLocalError, modelled as an `Except.error`. -/
def get_conv_ts (t : Topi) (input_holder filter_holder : Tensor)
    (stride pad : Nat) (layout : String) (dtypeTvm : String)
    (depthwise : Bool) : Except String (Tensor × Sched) :=
  let output_type := if dtypeTvm = "int8" then "int32" else dtypeTvm
  if !depthwise then
    match t.conv2d input_holder filter_holder stride pad layout output_type with
    | .error e => .error e
    | .ok conv =>
      if layout = "NCHW" then
        match t.schedule_conv2d_nchw conv with
        | .error e => .error e
        | .ok ts => .ok (conv, ts)
      else if layout = "NHWC" then
        match t.schedule_conv2d_nhwc conv with
        | .error e => .error e
        | .ok ts => .ok (conv, ts)
      else if layout = "HWCN" then
        match t.schedule_conv2d_hwcn conv with
        | .error e => .error e
        | .ok ts => .ok (conv, ts)
      else
        .error "UnboundLocalError: local variable referenced before assignment"
  else
    if layout = "NCHW" then
      match t.depthwise_conv2d_nchw input_holder filter_holder stride pad output_type with
      | .error e => .error e
      | .ok conv =>
        match t.schedule_depthwise_conv2d_nchw conv with
        | .error e => .error e
        | .ok ts => .ok (conv, ts)
    else if layout = "NHWC" then
      match t.depthwise_conv2d_nhwc input_holder filter_holder stride pad output_type with
      | .error e => .error e
      | .ok conv =>
        match t.schedule_depthwise_conv2d_nhwc conv with
        | .error e => .error e
        | .ok ts => .ok (conv, ts)
    else if layout = "HWCN" then
      match t.depthwise_conv2d_hwcn input_holder filter_holder stride pad output_type with
      | .error e => .error e
      | .ok conv =>
        match t.schedule_depthwise_conv2d_hwcn conv with
        | .error e => .error e
        | .ok ts => .ok (conv, ts)
    else
      .error "UnboundLocalError: local variable referenced before assignment"

/-- Outcomes of the external fallible calls one workload can make after
schedule construction: `tvm.build`, `f.export_library`, `remote.upload`,
`remote.load_module`, the kernel invocation `f(...)`, the timed evaluation
`timer(...).mean` (returning a mean cost), and `test_correctness`.  Each is
a Python call that either returns or raises. -/
structure RunExt where
  topi : Topi
  tvmBuild : Except String Unit
  exportLib : Except String Unit
  upload : Except String Unit
  load_module : Except String Unit
  invokeRes : Except String Unit
  time_evaluator : Except String Nat
  correctnessRes : Except String Unit

/-- Sequencing of two straight-line blocks of Python statements: if the
first block raised, the second never runs and the exception keeps
propagating; otherwise both blocks' events happen in order. -/
def andThen (a b : List Event × Option String) : List Event × Option String :=
  match a with
  | (evs, some e) => (evs, some e)
  | (evs, none) => (evs ++ b.1, b.2)

/-- Embedding of `build_and_run` (bench.py lines 42-106).  Only the
`tvm.build` call sits in a `try/except`; a failure there prints the
exception and the full-context `-> failed` line and returns normally.
Everything in the `else:` branch (export/upload/load when remote, the
warmup invocations, the timed evaluation, the success print, and the
correctness check) has no local handler: its exception escapes
`build_and_run` as the `Option String` component. -/
def build_and_run (re : RunExt) (phase : String) (idx : Nat)
    (input_holder filter_holder : Tensor)
    (kernel space input_channel output_channel stride pad : Nat)
    (layout : String)
    (tvm_input tvm_filter tvm_output : NDArray)
    (ts : Sched) (conv : Tensor)
    (target target_host : String)
    (warmup runNumber ops : Nat)
    (histActive remote : Bool) : List Event × Option String :=
  let f_name := toString idx ++ "_" ++ phase ++ "_" ++ toString kernel ++ "_" ++
    toString space ++ "_" ++ toString input_channel ++ "_" ++ toString output_channel
  match re.tvmBuild with
  | .error e =>
    ([Event.buildStep histActive f_name, Event.printExc e,
      Event.printLine (LogLine.buildFail phase target tvm_input.dtype layout
        stride pad input_holder.shape filter_holder.shape)], none)
  | .ok _ =>
    let so_name := f_name ++ ".so"
    let remoteRes : List Event × Option String :=
      if remote then
        andThen (match re.exportLib with
          | .error e => ([Event.exportStep so_name], some e)
          | .ok _ => ([Event.exportStep so_name], none))
          (andThen (match re.upload with
            | .error e => ([Event.uploadStep so_name], some e)
            | .ok _ => ([Event.uploadStep so_name], none))
            (match re.load_module with
            | .error e => ([Event.loadStep so_name], some e)
            | .ok _ => ([Event.loadStep so_name], none)))
      else ([], none)
    let warmupRes : List Event × Option String :=
      if warmup = 0 then ([], none)
      else match re.invokeRes with
        | .error e => ([Event.invoke tvm_input tvm_filter tvm_output], some e)
        | .ok _ => (List.replicate warmup (Event.invoke tvm_input tvm_filter tvm_output), none)
    let timerRes : List Event × Option String :=
      match re.time_evaluator with
      | .error e => ([Event.timeEval runNumber], some e)
      | .ok cost =>
        ([Event.timeEval runNumber,
          Event.printLine (LogLine.success phase target tvm_input.dtype layout
            stride pad input_holder.shape filter_holder.shape ops cost)], none)
    let corrRes : List Event × Option String :=
      let ev := Event.correctness input_channel output_channel kernel stride pad
        tvm_input tvm_filter tvm_output tvm_input.dtype layout (phase == "depthwise")
      match re.correctnessRes with
      | .error e => ([ev], some e)
      | .ok _ => ([ev], none)
    andThen ([Event.buildStep histActive f_name], none)
      (andThen remoteRes (andThen warmupRes (andThen timerRes corrRes)))

/-- External pure helpers from the modules `utils`, `workloads` and
`data_type` (imported by bench.py but outside the benchmarked file), plus
`config_arch`, which resolves `(tgt, arch, schedule, remote)` to a
`(target, target_host)` pair or `None` for an unsupported combination. -/
structure ExtFuns where
  get_input_and_filter_shape : String → Nat → Nat → Nat → Nat → Bool → List Nat × List Nat
  get_num_ops : Nat → Nat → Nat → Nat → Bool → Nat
  config_arch : String → String → String → Bool → Option (String × String)
  get_workloads : String → List Workload
  get_data_type : String → DataType

/-- The `output_space` extraction of bench.py lines 219-224: index 2, 1 or 0
of `conv.shape` according to the layout.  An out-of-range index raises
`IndexError`; a layout outside the three names leaves `output_space`
unassigned (`UnboundLocalError`) — both are caught by the surrounding
per-workload `try`. -/
def output_space_of (layout : String) (shape : List Nat) : Except String Nat :=
  if layout = "NCHW" then
    match shape.get? 2 with
    | some v => .ok v
    | none => .error "IndexError: tuple index out of range"
  else if layout = "NHWC" then
    match shape.get? 1 with
    | some v => .ok v
    | none => .error "IndexError: tuple index out of range"
  else if layout = "HWCN" then
    match shape.get? 0 with
    | some v => .ok v
    | none => .error "IndexError: tuple index out of range"
  else .error "UnboundLocalError: local variable referenced before assignment"

/-- One iteration of the workload loop in `bench_tvm` (bench.py lines
170-251), threading the numpy RNG draw counter.  In order: read the
workload fields; compute shapes and placeholders; draw random input and
filter data (two draws); enter the `apply_history_best` context when
`schedule == "manual"` (it stays active for the whole remaining body,
including `build_and_run`, since the `with` block encloses it); call
`get_conv_ts` inside a `try` whose handler prints the exception and the
hardcoded-`standard`, no-stride/pad `-> schedule skip` line and
`continue`s; otherwise bind the device buffers (random input/filter, a
zero-filled output shaped and typed from `conv`), compute `output_space`
and `ops`, and call `build_and_run` inside the second `try`, whose handler
prints the exception and the `-> run skip` line and `continue`s. -/
def bench_workload (fns : ExtFuns) (re : RunExt) (key target target_host : String)
    (dtype : DataType) (layout : String) (remote : Bool) (schedule : String)
    (idx : Nat) (w : Workload) (rng : Nat) : List Event × Nat :=
  let phase := if w.depthwise then "depthwise" else "standard"
  let shapes := fns.get_input_and_filter_shape layout w.space w.input_channel
    w.output_channel w.kernel w.depthwise
  let input_holder : Tensor := ⟨shapes.1, dtype.tvm_type⟩
  let filter_holder : Tensor := ⟨shapes.2, dtype.tvm_type⟩
  let log_name := "../configs/" ++ key ++ "." ++ "convolutions.log"
  let manual := schedule == "manual"
  let evHead := [Event.workloadStart idx, Event.randomGen rng, Event.randomGen (rng + 1)]
    ++ (if manual then [Event.applyHistoryBest log_name] else [])
    ++ [Event.scheduleConstruct manual]
  match get_conv_ts re.topi input_holder filter_holder w.stride w.pad layout
      dtype.tvm_type w.depthwise with
  | .error e =>
    (evHead ++ [Event.printExc e,
      Event.printLine (LogLine.scheduleSkip "standard" target input_holder.dtype
        layout input_holder.shape filter_holder.shape)], rng + 2)
  | .ok (conv, ts) =>
    let tvm_input : NDArray := ⟨BufData.random rng, dtype.np_type, shapes.1⟩
    let tvm_filter : NDArray := ⟨BufData.random (rng + 1), dtype.np_type, shapes.2⟩
    let tvm_output : NDArray := ⟨BufData.zeros, conv.dtype, conv.shape⟩
    let evBind := [Event.bindBuffers idx tvm_input tvm_filter tvm_output]
    match output_space_of layout conv.shape with
    | .error e =>
      (evHead ++ evBind ++ [Event.printExc e,
        Event.printLine (LogLine.runSkip phase target input_holder.dtype layout
          input_holder.shape filter_holder.shape)], rng + 2)
    | .ok output_space =>
      let ops := fns.get_num_ops output_space w.input_channel w.output_channel
        w.kernel w.depthwise
      let br := build_and_run re phase idx input_holder filter_holder w.kernel
        w.space w.input_channel w.output_channel w.stride w.pad layout
        tvm_input tvm_filter tvm_output ts conv target target_host
        w.warmupCount w.runCount ops manual remote
      match br.2 with
      | some e =>
        (evHead ++ evBind ++ br.1 ++ [Event.printExc e,
          Event.printLine (LogLine.runSkip phase target input_holder.dtype layout
            input_holder.shape filter_holder.shape)], rng + 2)
      | none => (evHead ++ evBind ++ br.1, rng + 2)

/-- The workload loop of `bench_tvm`: each iteration either `continue`s or
falls off the end of its body, so the loop always advances to the next
workload; no exception escapes an iteration. -/
def bench_loop (fns : ExtFuns) (ext : Nat → RunExt) (key target target_host : String)
    (dtype : DataType) (layout : String) (remote : Bool) (schedule : String) :
    Nat → Nat → List Workload → List Event × Nat
  | _, rng, [] => ([], rng)
  | idx, rng, w :: ws =>
    let one := bench_workload fns (ext idx) key target target_host dtype layout
      remote schedule idx w rng
    let rest := bench_loop fns ext key target target_host dtype layout remote
      schedule (idx + 1) one.2 ws
    (one.1 ++ rest.1, rest.2)

/-- Embedding of `bench_tvm` (bench.py lines 158-251): resolve the target
via `config_arch`; a `None` target returns immediately (the whole sweep
branch is skipped), otherwise run the workload loop from RNG state
`rng`. -/
def bench_tvm (fns : ExtFuns) (ext : Nat → RunExt) (arch tgt key : String)
    (dtype : DataType) (layout : String) (workloads : List Workload)
    (remote : Bool) (schedule : String) (rng : Nat) : List Event × Nat :=
  match fns.config_arch tgt arch schedule remote with
  | none => ([], rng)
  | some (target, target_host) =>
    bench_loop fns ext key target target_host dtype layout remote schedule 0 rng workloads

/-- The full-sweep cell list produced by the nested loops of `__main__`
(bench.py lines 279-295): targets, then dtypes, then layouts, then
workload sets, then schedule strategies, innermost last. -/
def sweep_cells : List (String × String × String × String × String) :=
  (["cpu"].map fun t =>
    (["int8", "float"].map fun d =>
      (["NCHW", "NHWC", "HWCN"].map fun l =>
        (["caffe2_depthwise", "caffe2_standard", "mobilenet"].map fun w =>
          ["auto", "manual"].map fun s => (t, d, l, w, s)).flatten).flatten).flatten).flatten

/-- The default-sweep loop body: one `bench_tvm` call per cell, in order,
threading the RNG counter; each call is recorded as a `benchCall` event. -/
def run_cells (fns : ExtFuns) (ext : Nat → Nat → RunExt) (arch key : String)
    (remote : Bool) :
    Nat → Nat → List (String × String × String × String × String) → List Event
  | _, _, [] => []
  | ci, rng, (tgt, d, l, wset, sch) :: rest =>
    let one := bench_tvm fns (ext ci) arch tgt key (fns.get_data_type d) l
      (fns.get_workloads wset) remote sch rng
    Event.benchCall tgt d l wset sch :: one.1
      ++ run_cells fns ext arch key remote (ci + 1) one.2 rest

/-- Python `int(...)` on a nonnegative decimal string, as applied to the
tracker port environment variable: digits-only and nonempty, otherwise a
`ValueError` (here `none`). -/
def parse_int (s : String) : Option Nat :=
  if s.data ≠ [] ∧ s.data.all (fun c => c.isDigit) then
    some (s.data.foldl (fun n c => n * 10 + (c.toNat - 48)) 0)
  else none

/-- Module-level initialization (bench.py lines 31-32): reads
`TVM_TRACKER_HOST` and `TVM_TRACKER_PORT` from the environment and converts
the port with `int(...)`.  It runs at import time, before `__main__` looks
at any command-line argument; a missing variable raises `KeyError` there
and then. -/
def module_init (env : String → Option String) : Except String (String × Nat) :=
  match env "TVM_TRACKER_HOST" with
  | none => .error "KeyError: TVM_TRACKER_HOST"
  | some h =>
    match env "TVM_TRACKER_PORT" with
    | none => .error "KeyError: TVM_TRACKER_PORT"
    | some p =>
      match parse_int p with
      | none => .error "ValueError: invalid literal for int"
      | some n => .ok (h, n)

/-- Embedding of the program entry: module-level code runs first
(environment reads), then `__main__` (bench.py lines 254-295) parses
`argv`, connects to the tracker only when `argv[2] == "remote"`
(`rpcConnect` models `connect_tracker` + `request`, which may raise a
fatal setup failure), and either runs one explicit cell (nine or more
arguments) or the full default sweep.  `argv` here includes the program
name at index 0, as `sys.argv` does. -/
def run_main (env : String → Option String) (fns : ExtFuns)
    (ext : Nat → Nat → RunExt) (rpcConnect : Except String Unit)
    (argv : List String) : Except String (List Event) :=
  match module_init env with
  | .error e => .error e
  | .ok _ =>
    match argv.get? 1 with
    | none => .error "IndexError: list index out of range"
    | some arch =>
      match argv.get? 2 with
      | none => .error "IndexError: list index out of range"
      | some mode =>
        let keyRes : Except String (String × Bool) :=
          if mode = "remote" then
            match argv.get? 3 with
            | none => .error "IndexError: list index out of range"
            | some k =>
              match rpcConnect with
              | .error e => .error e
              | .ok _ => .ok (k, true)
          else .ok ("android", false)
        match keyRes with
        | .error e => .error e
        | .ok (key, remote) =>
          if 4 < argv.length then
            match argv.get? 4, argv.get? 5, argv.get? 6, argv.get? 7, argv.get? 8 with
            | some tgt, some d, some l, some wset, some sch =>
              .ok (bench_tvm fns (ext 0) arch tgt key (fns.get_data_type d) l
                (fns.get_workloads wset) remote sch 0).1
            | _, _, _, _, _ => .error "IndexError: list index out of range"
          else
            .ok (run_cells fns ext arch key remote 0 0 sweep_cells)

/-- Recognizer: a `test_correctness` invocation event. -/
def isCorrectnessCall : Event → Bool
  | .correctness _ _ _ _ _ _ _ _ _ _ _ => true
  | _ => false

/-- Recognizer: a printed success line (the only place a measured cost is
reported). -/
def isSuccessLine : Event → Bool
  | .printLine (.success _ _ _ _ _ _ _ _ _ _) => true
  | _ => false

/-- Recognizer: a `get_conv_ts` invocation (one schedule-construction
attempt). -/
def isScheduleConstruct : Event → Bool
  | .scheduleConstruct _ => true
  | _ => false

/-- Recognizer: an `apply_history_best` context entry. -/
def isApplyHistory : Event → Bool
  | .applyHistoryBest _ => true
  | _ => false

/-- Recognizer: one `np.random.random` draw. -/
def isRandomGen : Event → Bool
  | .randomGen _ => true
  | _ => false

/-- Recognizer: a device-buffer binding (`tvm.nd.array` triple). -/
def isBindBuffers : Event → Bool
  | .bindBuffers _ _ _ _ => true
  | _ => false

/-- Recognizer: one `bench_tvm` invocation from the driver. -/
def isBenchCall : Event → Bool
  | .benchCall _ _ _ _ _ => true
  | _ => false

/-- Recognizer: a `tvm.build` attempt. -/
def isBuildStep : Event → Bool
  | .buildStep _ _ => true
  | _ => false

/-- Recognizer: one kernel invocation. -/
def isInvoke : Event → Bool
  | .invoke _ _ _ => true
  | _ => false

/-- A sample topi instance where every constructor succeeds and returns a
tensor of the requested output dtype; used to instantiate the external
parameters in concrete runs. -/
def okTopi : Topi where
  conv2d := fun _ _ _ _ _ od => .ok ⟨[1, 8, 56, 56], od⟩
  schedule_conv2d_nchw := fun _ => .ok ⟨0⟩
  schedule_conv2d_nhwc := fun _ => .ok ⟨1⟩
  schedule_conv2d_hwcn := fun _ => .ok ⟨2⟩
  depthwise_conv2d_nchw := fun _ _ _ _ od => .ok ⟨[1, 8, 28, 28], od⟩
  depthwise_conv2d_nhwc := fun _ _ _ _ od => .ok ⟨[1, 28, 28, 8], od⟩
  depthwise_conv2d_hwcn := fun _ _ _ _ od => .ok ⟨[28, 28, 8, 1], od⟩
  schedule_depthwise_conv2d_nchw := fun _ => .ok ⟨3⟩
  schedule_depthwise_conv2d_nhwc := fun _ => .ok ⟨4⟩
  schedule_depthwise_conv2d_hwcn := fun _ => .ok ⟨5⟩

/-- A sample external-call record where every call succeeds. -/
def okRun : RunExt where
  topi := okTopi
  tvmBuild := .ok ()
  exportLib := .ok ()
  upload := .ok ()
  load_module := .ok ()
  invokeRes := .ok ()
  time_evaluator := .ok 5
  correctnessRes := .ok ()

/-- A standard (dense) sample workload. -/
def sampleW : Workload := ⟨56, 32, 64, 3, 1, 1, 2, 10, false⟩

/-- A depthwise sample workload. -/
def sampleDW : Workload := ⟨28, 32, 32, 3, 1, 2, 2, 10, true⟩

/-- Sample external helper functions: caffe2-style NCHW/OIHW shapes, a
flop-count formula, a `config_arch` that resolves every pair, and two
workloads per set. -/
def simpleFuns : ExtFuns where
  get_input_and_filter_shape := fun _ space ic oc kernel _ =>
    ([1, ic, space, space], [oc, ic, kernel, kernel])
  get_num_ops := fun os ic oc k _ => os * os * ic * oc * k * k * 2
  config_arch := fun _ _ _ _ => some ("llvm", "llvm-host")
  get_workloads := fun _ => [sampleW, sampleDW]
  get_data_type := fun s => if s = "int8" then ⟨"int8", "int8"⟩ else ⟨"float32", "float32"⟩

/-- Spec-side predicate (refinement check for the failure-logging claim):
a printed line carries the full configuration context in the spec's sense
exactly when its format string includes the stride and pad fields. -/
def claimC9_full_context : LogLine → Bool
  | .buildFail _ _ _ _ _ _ _ _ => true
  | .success _ _ _ _ _ _ _ _ _ _ => true
  | .scheduleSkip _ _ _ _ _ _ => false
  | .runSkip _ _ _ _ _ _ => false

/-- The phase label a printed line starts with (the text before `--`). -/
def lineLabel : LogLine → String
  | .buildFail label _ _ _ _ _ _ _ => label
  | .success label _ _ _ _ _ _ _ _ _ => label
  | .scheduleSkip label _ _ _ _ _ => label
  | .runSkip label _ _ _ _ _ => label

/-- A topi instance whose depthwise constructors raise, for exercising the
schedule-failure path on depthwise workloads. -/
def dwFailTopi : Topi :=
  { okTopi with
    depthwise_conv2d_nchw := fun _ _ _ _ _ => .error "dw-boom"
    depthwise_conv2d_nhwc := fun _ _ _ _ _ => .error "dw-boom"
    depthwise_conv2d_hwcn := fun _ _ _ _ _ => .error "dw-boom" }

/-- A `RunExt` whose schedule construction fails on depthwise workloads. -/
def dwFailRun : RunExt := { okRun with topi := dwFailTopi }

/-- A `RunExt` whose timed evaluation raises. -/
def timeFailRun : RunExt := { okRun with time_evaluator := .error "timeout" }

/-- A `RunExt` whose compilation (`tvm.build`) raises. -/
def buildFailRun : RunExt := { okRun with tvmBuild := .error "codegen error" }

/-- A topi instance whose dense `conv2d` constructor raises, for exercising
the schedule-failure path. -/
def denseFailTopi : Topi :=
  { okTopi with conv2d := fun _ _ _ _ _ _ => .error "boom" }

/-- A `RunExt` whose schedule construction fails on dense workloads. -/
def schedFailRun : RunExt := { okRun with topi := denseFailTopi }

/-- C4: `get_conv_ts` promotes the convolution output dtype: an `int8`
input tvm type yields an `int32` output tensor, any other (floating) input
tvm type yields an output tensor of the same type.  This holds for the
dense and the depthwise operator in every layout, assuming the external
topi constructors honour their `out_dtype` argument. -/
theorem C4_output_dtype_promoted (t : Topi) (input_holder filter_holder : Tensor)
    (stride pad : Nat) (layout dtypeTvm : String) (depthwise : Bool)
    (conv : Tensor) (ts : Sched)
    (hconv : ∀ i f s p l od c, t.conv2d i f s p l od = .ok c → c.dtype = od)
    (hd1 : ∀ i f s p od c, t.depthwise_conv2d_nchw i f s p od = .ok c → c.dtype = od)
    (hd2 : ∀ i f s p od c, t.depthwise_conv2d_nhwc i f s p od = .ok c → c.dtype = od)
    (hd3 : ∀ i f s p od c, t.depthwise_conv2d_hwcn i f s p od = .ok c → c.dtype = od)
    (h : get_conv_ts t input_holder filter_holder stride pad layout dtypeTvm depthwise
      = .ok (conv, ts)) :
    conv.dtype = if dtypeTvm = "int8" then "int32" else dtypeTvm := by
  simp only [get_conv_ts] at h
  cases hdw : depthwise <;> rw [hdw] at h <;>
    simp only [Bool.not_false, Bool.not_true, Bool.false_eq_true, Bool.true_eq_false,
      if_true, if_false] at h
  · cases hC : t.conv2d input_holder filter_holder stride pad layout
        (if dtypeTvm = "int8" then "int32" else dtypeTvm) with
    | error e => rw [hC] at h; simp at h
    | ok c =>
      rw [hC] at h
      dsimp only [] at h
      by_cases h1 : layout = "NCHW"
      · rw [if_pos h1] at h
        cases hS : t.schedule_conv2d_nchw c <;> rw [hS] at h <;> simp at h
        obtain ⟨rfl, rfl⟩ := h
        exact hconv _ _ _ _ _ _ _ hC
      · rw [if_neg h1] at h
        by_cases h2 : layout = "NHWC"
        · rw [if_pos h2] at h
          cases hS : t.schedule_conv2d_nhwc c <;> rw [hS] at h <;> simp at h
          obtain ⟨rfl, rfl⟩ := h
          exact hconv _ _ _ _ _ _ _ hC
        · rw [if_neg h2] at h
          by_cases h3 : layout = "HWCN"
          · rw [if_pos h3] at h
            cases hS : t.schedule_conv2d_hwcn c <;> rw [hS] at h <;> simp at h
            obtain ⟨rfl, rfl⟩ := h
            exact hconv _ _ _ _ _ _ _ hC
          · rw [if_neg h3] at h; simp at h
  · by_cases h1 : layout = "NCHW"
    · rw [if_pos h1] at h
      cases hC : t.depthwise_conv2d_nchw input_holder filter_holder stride pad
          (if dtypeTvm = "int8" then "int32" else dtypeTvm) with
      | error e => rw [hC] at h; simp at h
      | ok c =>
        rw [hC] at h
        dsimp only [] at h
        cases hS : t.schedule_depthwise_conv2d_nchw c <;> rw [hS] at h <;> simp at h
        obtain ⟨rfl, rfl⟩ := h
        exact hd1 _ _ _ _ _ _ hC
    · rw [if_neg h1] at h
      by_cases h2 : layout = "NHWC"
      · rw [if_pos h2] at h
        cases hC : t.depthwise_conv2d_nhwc input_holder filter_holder stride pad
            (if dtypeTvm = "int8" then "int32" else dtypeTvm) with
        | error e => rw [hC] at h; simp at h
        | ok c =>
          rw [hC] at h
          dsimp only [] at h
          cases hS : t.schedule_depthwise_conv2d_nhwc c <;> rw [hS] at h <;> simp at h
          obtain ⟨rfl, rfl⟩ := h
          exact hd2 _ _ _ _ _ _ hC
      · rw [if_neg h2] at h
        by_cases h3 : layout = "HWCN"
        · rw [if_pos h3] at h
          cases hC : t.depthwise_conv2d_hwcn input_holder filter_holder stride pad
              (if dtypeTvm = "int8" then "int32" else dtypeTvm) with
          | error e => rw [hC] at h; simp at h
          | ok c =>
            rw [hC] at h
            dsimp only [] at h
            cases hS : t.schedule_depthwise_conv2d_hwcn c <;> rw [hS] at h <;> simp at h
            obtain ⟨rfl, rfl⟩ := h
            exact hd3 _ _ _ _ _ _ hC
        · rw [if_neg h3] at h; simp at h

/-- Witness for C4 at a concrete input: a depthwise int8 NHWC workload
produces an int32 output tensor. -/
theorem C4_output_dtype_promoted_witness :
    get_conv_ts okTopi ⟨[1, 28, 28, 32], "int8"⟩ ⟨[3, 3, 32, 1], "int8"⟩ 2 1
        "NHWC" "int8" true = .ok (⟨[1, 28, 28, 8], "int32"⟩, ⟨4⟩)
    ∧ (⟨[1, 28, 28, 8], "int32"⟩ : Tensor).dtype
      = if "int8" = "int8" then "int32" else "int8" :=
  ⟨rfl, C4_output_dtype_promoted okTopi ⟨[1, 28, 28, 32], "int8"⟩ ⟨[3, 3, 32, 1], "int8"⟩
    2 1 "NHWC" "int8" true ⟨[1, 28, 28, 8], "int32"⟩ ⟨4⟩
    (fun i f s p l od c hc => by cases hc; rfl)
    (fun i f s p od c hc => by cases hc; rfl)
    (fun i f s p od c hc => by cases hc; rfl)
    (fun i f s p od c hc => by cases hc; rfl)
    rfl⟩

/-- C1: if `get_conv_ts` raises any exception for a workload (including the
UnboundLocalError an unsupported layout string produces), `bench_tvm`
catches it, prints the exception and a `schedule skip` line, produces no
success (cost) line and no correctness call for that workload, and the
workload loop continues with the next workload; the loop is a total
function, so the exception never escapes `bench_tvm`. -/
theorem C1_schedule_failure_isolated
    (fns : ExtFuns) (ext : Nat → RunExt) (key target target_host : String)
    (dtype : DataType) (layout : String) (remote : Bool) (schedule : String)
    (idx rng : Nat) (w : Workload) (ws : List Workload) (e : String)
    (h : get_conv_ts (ext idx).topi
        ⟨(fns.get_input_and_filter_shape layout w.space w.input_channel
            w.output_channel w.kernel w.depthwise).1, dtype.tvm_type⟩
        ⟨(fns.get_input_and_filter_shape layout w.space w.input_channel
            w.output_channel w.kernel w.depthwise).2, dtype.tvm_type⟩
        w.stride w.pad layout dtype.tvm_type w.depthwise = .error e) :
    bench_workload fns (ext idx) key target target_host dtype layout remote schedule idx w rng
      = ([Event.workloadStart idx, Event.randomGen rng, Event.randomGen (rng + 1)]
          ++ (if schedule == "manual" then
                [Event.applyHistoryBest ("../configs/" ++ key ++ "." ++ "convolutions.log")]
              else [])
          ++ [Event.scheduleConstruct (schedule == "manual"), Event.printExc e,
              Event.printLine (LogLine.scheduleSkip "standard" target dtype.tvm_type layout
                (fns.get_input_and_filter_shape layout w.space w.input_channel
                  w.output_channel w.kernel w.depthwise).1
                (fns.get_input_and_filter_shape layout w.space w.input_channel
                  w.output_channel w.kernel w.depthwise).2)], rng + 2)
    ∧ (bench_workload fns (ext idx) key target target_host dtype layout remote schedule idx w rng).1.countP
        isSuccessLine = 0
    ∧ (bench_workload fns (ext idx) key target target_host dtype layout remote schedule idx w rng).1.countP
        isCorrectnessCall = 0
    ∧ bench_loop fns ext key target target_host dtype layout remote schedule idx rng (w :: ws)
      = ((bench_workload fns (ext idx) key target target_host dtype layout remote schedule idx w rng).1
          ++ (bench_loop fns ext key target target_host dtype layout remote schedule (idx + 1)
              (bench_workload fns (ext idx) key target target_host dtype layout remote schedule idx w rng).2 ws).1,
         (bench_loop fns ext key target target_host dtype layout remote schedule (idx + 1)
          (bench_workload fns (ext idx) key target target_host dtype layout remote schedule idx w rng).2 ws).2) := by
  have hbw : bench_workload fns (ext idx) key target target_host dtype layout remote schedule idx w rng
      = ([Event.workloadStart idx, Event.randomGen rng, Event.randomGen (rng + 1)]
          ++ (if schedule == "manual" then
                [Event.applyHistoryBest ("../configs/" ++ key ++ "." ++ "convolutions.log")]
              else [])
          ++ [Event.scheduleConstruct (schedule == "manual"), Event.printExc e,
              Event.printLine (LogLine.scheduleSkip "standard" target dtype.tvm_type layout
                (fns.get_input_and_filter_shape layout w.space w.input_channel
                  w.output_channel w.kernel w.depthwise).1
                (fns.get_input_and_filter_shape layout w.space w.input_channel
                  w.output_channel w.kernel w.depthwise).2)], rng + 2) := by
    simp only [bench_workload]
    rw [h]
    simp [List.append_assoc]
  refine ⟨hbw, ?_, ?_, ?_⟩
  · rw [hbw]
    cases hm : schedule == "manual" <;>
      simp [hm, List.countP_append, isSuccessLine, List.countP_cons]
  · rw [hbw]
    cases hm : schedule == "manual" <;>
      simp [hm, List.countP_append, isCorrectnessCall, List.countP_cons]
  · simp only [bench_loop]


/-- Witness for C1: a concrete dense workload whose `conv2d` constructor
raises; no correctness call is recorded. -/
theorem C1_schedule_failure_isolated_witness :
    get_conv_ts schedFailRun.topi ⟨[1, 32, 56, 56], "float32"⟩ ⟨[64, 32, 3, 3], "float32"⟩
        1 1 "NCHW" "float32" false = .error "boom"
    ∧ (bench_workload simpleFuns schedFailRun "android" "llvm" "llvm-host"
        ⟨"float32", "float32"⟩ "NCHW" false "auto" 0 sampleW 0).1.countP isCorrectnessCall = 0 :=
  ⟨rfl, (C1_schedule_failure_isolated simpleFuns (fun _ => schedFailRun) "android" "llvm"
    "llvm-host" ⟨"float32", "float32"⟩ "NCHW" false "auto" 0 0 sampleW [sampleDW]
    "boom" rfl).2.2.1⟩

end Caffe2TvmBench

namespace Caffe2TvmBench
theorem mem_andThen {ev : Event} {a b : List Event × Option String}
    (h : ev ∈ (andThen a b).1) : ev ∈ a.1 ∨ ev ∈ b.1 := by
  rcases a with ⟨evs, exc⟩
  cases exc <;> simp_all [andThen]

theorem build_and_run_mem {ev : Event} {re : RunExt} {phase : String} {idx : Nat}
    {input_holder filter_holder : Tensor}
    {kernel space input_channel output_channel stride pad : Nat} {layout : String}
    {tvm_input tvm_filter tvm_output : NDArray} {ts : Sched} {conv : Tensor}
    {target target_host : String} {warmup runNumber ops : Nat} {histActive remote : Bool}
    (hev : ev ∈ (build_and_run re phase idx input_holder filter_holder kernel space
      input_channel output_channel stride pad layout tvm_input tvm_filter tvm_output
      ts conv target target_host warmup runNumber ops histActive remote).1) :
    (∃ f, ev = .buildStep histActive f)
    ∨ (∃ s, ev = .exportStep s) ∨ (∃ s, ev = .uploadStep s) ∨ (∃ s, ev = .loadStep s)
    ∨ ev = .invoke tvm_input tvm_filter tvm_output
    ∨ ev = .timeEval runNumber
    ∨ (∃ m, ev = .printExc m)
    ∨ ev = .printLine (.buildFail phase target tvm_input.dtype layout stride pad
        input_holder.shape filter_holder.shape)
    ∨ (∃ cost, ev = .printLine (.success phase target tvm_input.dtype layout stride pad
        input_holder.shape filter_holder.shape ops cost))
    ∨ ev = .correctness input_channel output_channel kernel stride pad
        tvm_input tvm_filter tvm_output tvm_input.dtype layout (phase == "depthwise") := by
  simp only [build_and_run] at hev
  cases hb : re.tvmBuild <;> rw [hb] at hev
  · dsimp only [] at hev
    simp at hev
    rcases hev with h | h | h <;> simp [h]
  · dsimp only [] at hev
    rcases mem_andThen hev with h0 | hev
    · simp at h0; simp [h0]
    rcases mem_andThen hev with h1 | hev
    · by_cases hr : remote = true
      · rw [if_pos hr] at h1
        rcases mem_andThen h1 with h2 | h1
        · cases he : re.exportLib <;> rw [he] at h2 <;> simp_all
        rcases mem_andThen h1 with h2 | h1
        · cases he : re.upload <;> rw [he] at h2 <;> simp_all
        · cases he : re.load_module <;> rw [he] at h1 <;> simp_all
      · rw [if_neg hr] at h1; simp at h1
    rcases mem_andThen hev with h1 | hev
    · by_cases hw : warmup = 0
      · rw [if_pos hw] at h1; simp at h1
      · rw [if_neg hw] at h1
        cases hi : re.invokeRes <;> rw [hi] at h1
        · simp at h1; simp [h1]
        · rw [List.mem_replicate] at h1
          simp [h1.2]
    rcases mem_andThen hev with h1 | hev
    · cases ht : re.time_evaluator with
      | error e => rw [ht] at h1; simp at h1; simp [h1]
      | ok cost =>
        rw [ht] at h1
        simp at h1
        rcases h1 with rfl | rfl
        · simp
        · exact Or.inr (Or.inr (Or.inr (Or.inr (Or.inr (Or.inr (Or.inr (Or.inr
            (Or.inl ⟨cost, rfl⟩))))))))
    · cases hc : re.correctnessRes <;> rw [hc] at hev <;> simp_all

theorem bench_workload_snd (fns : ExtFuns) (re : RunExt) (key target target_host : String)
    (dtype : DataType) (layout : String) (remote : Bool) (schedule : String)
    (idx : Nat) (w : Workload) (rng : Nat) :
    (bench_workload fns re key target target_host dtype layout remote schedule idx w rng).2
      = rng + 2 := by
  simp only [bench_workload]
  repeat' split
  all_goals rfl

theorem build_and_run_aux_events {ev : Event} {re : RunExt} {phase : String} {idx : Nat}
    {input_holder filter_holder : Tensor}
    {kernel space input_channel output_channel stride pad : Nat} {layout : String}
    {tvm_input tvm_filter tvm_output : NDArray} {ts : Sched} {conv : Tensor}
    {target target_host : String} {warmup runNumber ops : Nat} {histActive remote : Bool}
    (hev : ev ∈ (build_and_run re phase idx input_holder filter_holder kernel space
      input_channel output_channel stride pad layout tvm_input tvm_filter tvm_output
      ts conv target target_host warmup runNumber ops histActive remote).1) :
    isScheduleConstruct ev = false ∧ isRandomGen ev = false
    ∧ isApplyHistory ev = false ∧ isBindBuffers ev = false ∧ isBenchCall ev = false := by
  rcases build_and_run_mem hev with ⟨f, rfl⟩ | ⟨s, rfl⟩ | ⟨s, rfl⟩ | ⟨s, rfl⟩ | rfl | rfl
    | ⟨m, rfl⟩ | rfl | ⟨c, rfl⟩ | rfl <;>
    simp [isScheduleConstruct, isRandomGen, isApplyHistory, isBindBuffers, isBenchCall]

end Caffe2TvmBench

namespace Caffe2TvmBench

theorem build_and_run_counts {re : RunExt} {phase : String} {idx : Nat}
    {input_holder filter_holder : Tensor}
    {kernel space input_channel output_channel stride pad : Nat} {layout : String}
    {tvm_input tvm_filter tvm_output : NDArray} {ts : Sched} {conv : Tensor}
    {target target_host : String} {warmup runNumber ops : Nat} {histActive remote : Bool} :
    ((build_and_run re phase idx input_holder filter_holder kernel space
      input_channel output_channel stride pad layout tvm_input tvm_filter tvm_output
      ts conv target target_host warmup runNumber ops histActive remote).1).countP
        isScheduleConstruct = 0
    ∧ ((build_and_run re phase idx input_holder filter_holder kernel space
      input_channel output_channel stride pad layout tvm_input tvm_filter tvm_output
      ts conv target target_host warmup runNumber ops histActive remote).1).countP
        isRandomGen = 0
    ∧ ((build_and_run re phase idx input_holder filter_holder kernel space
      input_channel output_channel stride pad layout tvm_input tvm_filter tvm_output
      ts conv target target_host warmup runNumber ops histActive remote).1).countP
        isApplyHistory = 0
    ∧ ((build_and_run re phase idx input_holder filter_holder kernel space
      input_channel output_channel stride pad layout tvm_input tvm_filter tvm_output
      ts conv target target_host warmup runNumber ops histActive remote).1).countP
        isBindBuffers = 0
    ∧ ((build_and_run re phase idx input_holder filter_holder kernel space
      input_channel output_channel stride pad layout tvm_input tvm_filter tvm_output
      ts conv target target_host warmup runNumber ops histActive remote).1).countP
        isBenchCall = 0 := by
  refine ⟨?_, ?_, ?_, ?_, ?_⟩ <;>
    · rw [List.countP_eq_zero]
      intro ev hev
      have h := build_and_run_aux_events hev
      simp_all

theorem bench_workload_schedConstruct_flag {b : Bool} {fns : ExtFuns} {re : RunExt}
    {key target target_host : String} {dtype : DataType} {layout : String}
    {remote : Bool} {schedule : String} {idx : Nat} {w : Workload} {rng : Nat}
    (hev : Event.scheduleConstruct b ∈ (bench_workload fns re key target target_host
      dtype layout remote schedule idx w rng).1) :
    b = (schedule == "manual") := by
  simp only [bench_workload] at hev
  by_cases hm : (schedule == "manual") = true <;>
    first
      | rw [if_pos hm] at hev
      | rw [if_neg hm] at hev
  all_goals repeat' split at hev
  all_goals simp at hev
  all_goals
    first
      | (exact absurd (build_and_run_aux_events hev).1 (by simp [isScheduleConstruct]))
      | (simp [hev, hm]; done)
      | (rcases hev with hev | hev
         · simp [hev, hm]; done
         · exact absurd (build_and_run_aux_events hev).1 (by simp [isScheduleConstruct]))


theorem bench_workload_buildStep_flag {b : Bool} {f : String} {fns : ExtFuns} {re : RunExt}
    {key target target_host : String} {dtype : DataType} {layout : String}
    {remote : Bool} {schedule : String} {idx : Nat} {w : Workload} {rng : Nat}
    (hev : Event.buildStep b f ∈ (bench_workload fns re key target target_host
      dtype layout remote schedule idx w rng).1) :
    b = (schedule == "manual") := by
  simp only [bench_workload] at hev
  by_cases hm : (schedule == "manual") = true <;>
    first
      | rw [if_pos hm] at hev
      | rw [if_neg hm] at hev
  all_goals repeat' split at hev
  all_goals simp at hev
  all_goals
    rcases build_and_run_mem hev with ⟨g, hg2⟩ | ⟨s, hs⟩ | ⟨s, hs⟩ | ⟨s, hs⟩ | hh | hh
      | ⟨m, hm2⟩ | hh | ⟨c, hc2⟩ | hh <;> simp_all

theorem bench_workload_applyHist {n : String} {fns : ExtFuns} {re : RunExt}
    {key target target_host : String} {dtype : DataType} {layout : String}
    {remote : Bool} {schedule : String} {idx : Nat} {w : Workload} {rng : Nat}
    (hev : Event.applyHistoryBest n ∈ (bench_workload fns re key target target_host
      dtype layout remote schedule idx w rng).1) :
    (schedule == "manual") = true
    ∧ n = "../configs/" ++ key ++ "." ++ "convolutions.log" := by
  simp only [bench_workload] at hev
  by_cases hm : (schedule == "manual") = true <;>
    first
      | rw [if_pos hm] at hev
      | rw [if_neg hm] at hev
  all_goals repeat' split at hev
  all_goals simp at hev
  all_goals
    first
      | (exact absurd (build_and_run_aux_events hev).2.2.1 (by simp [isApplyHistory]))
      | (simp [hev, hm]; done)
      | (rcases hev with hev | hev
         · simp [hev, hm]; done
         · exact absurd (build_and_run_aux_events hev).2.2.1 (by simp [isApplyHistory]))

theorem build_and_run_not_randomGen {g : Nat} {re : RunExt} {phase : String} {idx : Nat}
    {input_holder filter_holder : Tensor}
    {kernel space input_channel output_channel stride pad : Nat} {layout : String}
    {tvm_input tvm_filter tvm_output : NDArray} {ts : Sched} {conv : Tensor}
    {target target_host : String} {warmup runNumber ops : Nat} {histActive remote : Bool} :
    ¬ (Event.randomGen g ∈ (build_and_run re phase idx input_holder filter_holder kernel
      space input_channel output_channel stride pad layout tvm_input tvm_filter tvm_output
      ts conv target target_host warmup runNumber ops histActive remote).1) := fun hmem => by
  simpa [isRandomGen] using (build_and_run_aux_events hmem).2.1

theorem bench_workload_randomGen {g : Nat} {fns : ExtFuns} {re : RunExt}
    {key target target_host : String} {dtype : DataType} {layout : String}
    {remote : Bool} {schedule : String} {idx : Nat} {w : Workload} {rng : Nat}
    (hev : Event.randomGen g ∈ (bench_workload fns re key target target_host
      dtype layout remote schedule idx w rng).1) :
    g = rng ∨ g = rng + 1 := by
  simp only [bench_workload] at hev
  by_cases hm : (schedule == "manual") = true <;>
    first
      | rw [if_pos hm] at hev
      | rw [if_neg hm] at hev
  all_goals repeat' split at hev
  all_goals simp [build_and_run_not_randomGen] at hev
  all_goals tauto

theorem bench_workload_counts (fns : ExtFuns) (re : RunExt)
    (key target target_host : String) (dtype : DataType) (layout : String)
    (remote : Bool) (schedule : String) (idx : Nat) (w : Workload) (rng : Nat) :
    ((bench_workload fns re key target target_host dtype layout remote schedule
        idx w rng).1).countP isScheduleConstruct = 1
    ∧ ((bench_workload fns re key target target_host dtype layout remote schedule
        idx w rng).1).countP isRandomGen = 2
    ∧ ((bench_workload fns re key target target_host dtype layout remote schedule
        idx w rng).1).countP isBenchCall = 0 := by
  refine ⟨?_, ?_, ?_⟩ <;>
    · simp only [bench_workload]
      by_cases hm : (schedule == "manual") = true <;>
        first
          | rw [if_pos hm]
          | rw [if_neg hm]
      all_goals repeat' split
      all_goals
        simp [List.countP_append, List.countP_cons, isScheduleConstruct, isRandomGen,
          isBenchCall, build_and_run_counts.1, build_and_run_counts.2.1,
          build_and_run_counts.2.2.2.2]


theorem bench_loop_count_sched (fns : ExtFuns) (ext : Nat → RunExt)
    (key target target_host : String) (dtype : DataType) (layout : String)
    (remote : Bool) (schedule : String) (idx rng : Nat) (ws : List Workload) :
    ((bench_loop fns ext key target target_host dtype layout remote schedule
        idx rng ws).1).countP isScheduleConstruct = ws.length := by
  induction ws generalizing idx rng with
  | nil => simp [bench_loop]
  | cons w ws ih =>
    simp [bench_loop, List.countP_append,
      (bench_workload_counts fns (ext idx) key target target_host dtype layout remote
        schedule idx w rng).1, ih, Nat.add_comm]

theorem bench_loop_no_benchCall (fns : ExtFuns) (ext : Nat → RunExt)
    (key target target_host : String) (dtype : DataType) (layout : String)
    (remote : Bool) (schedule : String) (idx rng : Nat) (ws : List Workload) :
    ((bench_loop fns ext key target target_host dtype layout remote schedule
        idx rng ws).1).filter isBenchCall = [] := by
  induction ws generalizing idx rng with
  | nil => simp [bench_loop]
  | cons w ws ih =>
    rw [List.filter_eq_nil_iff]
    intro ev hev
    simp only [bench_loop, List.mem_append] at hev
    rcases hev with hev | hev
    · have h0 := (bench_workload_counts fns (ext idx) key target target_host dtype layout
        remote schedule idx w rng).2.2
      rw [List.countP_eq_zero] at h0
      exact fun hp => h0 ev hev hp
    · have h0 := ih (idx + 1)
        (bench_workload fns (ext idx) key target target_host dtype layout remote
          schedule idx w rng).2
      rw [List.filter_eq_nil_iff] at h0
      exact h0 ev hev

theorem run_cells_benchCalls (fns : ExtFuns) (ext : Nat → Nat → RunExt)
    (arch key : String) (remote : Bool) (ci rng : Nat)
    (cells : List (String × String × String × String × String)) :
    (run_cells fns ext arch key remote ci rng cells).filter isBenchCall
      = cells.map fun c => Event.benchCall c.1 c.2.1 c.2.2.1 c.2.2.2.1 c.2.2.2.2 := by
  induction cells generalizing ci rng with
  | nil => simp [run_cells]
  | cons c cs ih =>
    rcases c with ⟨tgt, d, l, wset, sch⟩
    simp only [run_cells, List.filter_cons, List.filter_append, List.map_cons]
    rw [ih]
    simp only [isBenchCall, List.cons_append]
    simp only [bench_tvm]
    cases h : fns.config_arch tgt arch sch remote with
    | none => simp
    | some p =>
      rcases p with ⟨tg, th⟩
      simpa using congrArg (List.append · []) (bench_loop_no_benchCall fns (ext ci) key tg th
        (fns.get_data_type d) l remote sch 0 rng (fns.get_workloads wset))

/-- C3: in the default (argument-free) CLI mode the driver enumerates
exactly the 36-cell Cartesian product targets x dtypes x layouts x
workload-sets x strategies in loop order, issuing one `bench_tvm` call per
cell; and within any cell whose target resolves, exactly one schedule/build
attempt (`get_conv_ts` call) is made per workload, whatever the outcomes of
the other workloads and external calls — no early termination. -/
theorem C3_full_cartesian_sweep :
    sweep_cells
      = [("cpu", "int8", "NCHW", "caffe2_depthwise", "auto"),
      ("cpu", "int8", "NCHW", "caffe2_depthwise", "manual"),
      ("cpu", "int8", "NCHW", "caffe2_standard", "auto"),
      ("cpu", "int8", "NCHW", "caffe2_standard", "manual"),
      ("cpu", "int8", "NCHW", "mobilenet", "auto"),
      ("cpu", "int8", "NCHW", "mobilenet", "manual"),
      ("cpu", "int8", "NHWC", "caffe2_depthwise", "auto"),
      ("cpu", "int8", "NHWC", "caffe2_depthwise", "manual"),
      ("cpu", "int8", "NHWC", "caffe2_standard", "auto"),
      ("cpu", "int8", "NHWC", "caffe2_standard", "manual"),
      ("cpu", "int8", "NHWC", "mobilenet", "auto"),
      ("cpu", "int8", "NHWC", "mobilenet", "manual"),
      ("cpu", "int8", "HWCN", "caffe2_depthwise", "auto"),
      ("cpu", "int8", "HWCN", "caffe2_depthwise", "manual"),
      ("cpu", "int8", "HWCN", "caffe2_standard", "auto"),
      ("cpu", "int8", "HWCN", "caffe2_standard", "manual"),
      ("cpu", "int8", "HWCN", "mobilenet", "auto"),
      ("cpu", "int8", "HWCN", "mobilenet", "manual"),
      ("cpu", "float", "NCHW", "caffe2_depthwise", "auto"),
      ("cpu", "float", "NCHW", "caffe2_depthwise", "manual"),
      ("cpu", "float", "NCHW", "caffe2_standard", "auto"),
      ("cpu", "float", "NCHW", "caffe2_standard", "manual"),
      ("cpu", "float", "NCHW", "mobilenet", "auto"),
      ("cpu", "float", "NCHW", "mobilenet", "manual"),
      ("cpu", "float", "NHWC", "caffe2_depthwise", "auto"),
      ("cpu", "float", "NHWC", "caffe2_depthwise", "manual"),
      ("cpu", "float", "NHWC", "caffe2_standard", "auto"),
      ("cpu", "float", "NHWC", "caffe2_standard", "manual"),
      ("cpu", "float", "NHWC", "mobilenet", "auto"),
      ("cpu", "float", "NHWC", "mobilenet", "manual"),
      ("cpu", "float", "HWCN", "caffe2_depthwise", "auto"),
      ("cpu", "float", "HWCN", "caffe2_depthwise", "manual"),
      ("cpu", "float", "HWCN", "caffe2_standard", "auto"),
      ("cpu", "float", "HWCN", "caffe2_standard", "manual"),
      ("cpu", "float", "HWCN", "mobilenet", "auto"),
      ("cpu", "float", "HWCN", "mobilenet", "manual")]
    ∧ (∀ fns ext arch key remote ci rng,
        (run_cells fns ext arch key remote ci rng sweep_cells).filter isBenchCall
          = sweep_cells.map fun c => Event.benchCall c.1 c.2.1 c.2.2.1 c.2.2.2.1 c.2.2.2.2)
    ∧ (∀ fns ext arch tgt key dtype layout ws remote schedule rng tg th,
        fns.config_arch tgt arch schedule remote = some (tg, th) →
        ((bench_tvm fns ext arch tgt key dtype layout ws remote schedule rng).1).countP
          isScheduleConstruct = ws.length) := by
  refine ⟨by rfl, fun fns ext arch key remote ci rng =>
    run_cells_benchCalls fns ext arch key remote ci rng sweep_cells, ?_⟩
  intro fns ext arch tgt key dtype layout ws remote schedule rng tg th h
  simp only [bench_tvm, h]
  exact bench_loop_count_sched fns ext key tg th dtype layout remote schedule 0 rng ws

/-- Witness for C3 at a concrete cell: with a resolving `config_arch` and
two workloads, exactly two schedule-construction attempts are made. -/
theorem C3_full_cartesian_sweep_witness :
    simpleFuns.config_arch "cpu" "arm64" "auto" false = some ("llvm", "llvm-host")
    ∧ ((bench_tvm simpleFuns (fun _ => okRun) "arm64" "cpu" "android"
        ⟨"int8", "int8"⟩ "NCHW" [sampleW, sampleDW] false "auto" 0).1).countP
        isScheduleConstruct = [sampleW, sampleDW].length :=
  ⟨rfl, C3_full_cartesian_sweep.2.2 simpleFuns (fun _ => okRun) "arm64" "cpu" "android"
    ⟨"int8", "int8"⟩ "NCHW" [sampleW, sampleDW] false "auto" 0 "llvm" "llvm-host" rfl⟩


/-- Counterexample for C8: with no environment variables set, running in
`local` mode still fails at module import with a `KeyError` for the tracker
host — the variables are required even when no remote is used. -/
theorem C8_local_mode_requires_env_counterexample :
    run_main (fun _ => none) simpleFuns (fun _ _ => okRun) (.ok ())
      ["bench.py", "arm64", "local"] = .error "KeyError: TVM_TRACKER_HOST" := rfl

/-- C8 (amended): the two tracker environment variables are read
unconditionally at module import, before the mode argument is examined, so
they are required in every mode; with both set (and the port numeric),
`local` mode proceeds to the default sweep without touching the RPC
connection. -/
theorem C8_env_read_at_import (env : String → Option String) (fns : ExtFuns)
    (ext : Nat → Nat → RunExt) (rpcConnect : Except String Unit)
    (argv : List String) (arch : String) :
    (env "TVM_TRACKER_HOST" = none →
      run_main env fns ext rpcConnect argv = .error "KeyError: TVM_TRACKER_HOST")
    ∧ (∀ h, env "TVM_TRACKER_HOST" = some h → env "TVM_TRACKER_PORT" = none →
      run_main env fns ext rpcConnect argv = .error "KeyError: TVM_TRACKER_PORT")
    ∧ (∀ h p n, env "TVM_TRACKER_HOST" = some h → env "TVM_TRACKER_PORT" = some p →
      parse_int p = some n →
      run_main env fns ext rpcConnect ["bench.py", arch, "local"]
        = .ok (run_cells fns ext arch "android" false 0 0 sweep_cells)) := by
  refine ⟨fun h1 => ?_, fun h h1 h2 => ?_, fun h p n h1 h2 h3 => ?_⟩
  · simp [run_main, module_init, h1]
  · simp [run_main, module_init, h1, h2]
  · simp [run_main, module_init, h1, h2, h3]

/-- Witness for C8 (amended) at concrete inputs: host set but port unset
fails with the port `KeyError`; both set in local mode reaches the sweep. -/
theorem C8_env_read_at_import_witness :
    run_main (fun k => if k = "TVM_TRACKER_HOST" then some "10.0.0.1" else none)
        simpleFuns (fun _ _ => okRun) (.ok ()) ["bench.py", "arm64", "local"]
      = .error "KeyError: TVM_TRACKER_PORT"
    ∧ run_main (fun k => if k = "TVM_TRACKER_HOST" then some "10.0.0.1" else
          if k = "TVM_TRACKER_PORT" then some "9090" else none)
        simpleFuns (fun _ _ => okRun) (.ok ()) ["bench.py", "arm64", "local"]
      = .ok (run_cells simpleFuns (fun _ _ => okRun) "arm64" "android" false 0 0 sweep_cells) :=
  ⟨(C8_env_read_at_import (fun k => if k = "TVM_TRACKER_HOST" then some "10.0.0.1" else none)
      simpleFuns (fun _ _ => okRun) (.ok ()) ["bench.py", "arm64", "local"] "arm64").2.1
      "10.0.0.1" rfl rfl,
   (C8_env_read_at_import (fun k => if k = "TVM_TRACKER_HOST" then some "10.0.0.1" else
        if k = "TVM_TRACKER_PORT" then some "9090" else none)
      simpleFuns (fun _ _ => okRun) (.ok ()) [] "arm64").2.2
      "10.0.0.1" "9090" 9090 rfl rfl (by decide)⟩


theorem bench_workload_bind_data {j : Nat} {i f o : NDArray} {fns : ExtFuns} {re : RunExt}
    {key target target_host : String} {dtype : DataType} {layout : String}
    {remote : Bool} {schedule : String} {idx : Nat} {w : Workload} {rng : Nat}
    (hev : Event.bindBuffers j i f o ∈ (bench_workload fns re key target target_host
      dtype layout remote schedule idx w rng).1) :
    j = idx ∧ i.data = BufData.random rng ∧ f.data = BufData.random (rng + 1)
    ∧ o.data = BufData.zeros := by
  simp only [bench_workload] at hev
  by_cases hm : (schedule == "manual") = true <;>
    first
      | rw [if_pos hm] at hev
      | rw [if_neg hm] at hev
  all_goals repeat' split at hev
  all_goals simp at hev
  all_goals
    first
      | (exact absurd (build_and_run_aux_events hev).2.2.2.1 (by simp [isBindBuffers]))
      | (simp [hev.1, hev.2.1, hev.2.2.1, hev.2.2.2]; done)
      | (rcases hev with hev | hev
         · simp [hev.1, hev.2.1, hev.2.2.1, hev.2.2.2]; done
         · exact absurd (build_and_run_aux_events hev).2.2.2.1 (by simp [isBindBuffers]))

theorem bench_workload_invoke_args {i f o : NDArray} {fns : ExtFuns} {re : RunExt}
    {key target target_host : String} {dtype : DataType} {layout : String}
    {remote : Bool} {schedule : String} {idx : Nat} {w : Workload} {rng : Nat}
    {conv : Tensor} {ts : Sched}
    (hg : get_conv_ts re.topi
        ⟨(fns.get_input_and_filter_shape layout w.space w.input_channel
            w.output_channel w.kernel w.depthwise).1, dtype.tvm_type⟩
        ⟨(fns.get_input_and_filter_shape layout w.space w.input_channel
            w.output_channel w.kernel w.depthwise).2, dtype.tvm_type⟩
        w.stride w.pad layout dtype.tvm_type w.depthwise = .ok (conv, ts))
    (hev : Event.invoke i f o ∈ (bench_workload fns re key target target_host
      dtype layout remote schedule idx w rng).1) :
    i = ⟨BufData.random rng, dtype.np_type,
          (fns.get_input_and_filter_shape layout w.space w.input_channel
            w.output_channel w.kernel w.depthwise).1⟩
    ∧ f = ⟨BufData.random (rng + 1), dtype.np_type,
          (fns.get_input_and_filter_shape layout w.space w.input_channel
            w.output_channel w.kernel w.depthwise).2⟩
    ∧ o = ⟨BufData.zeros, conv.dtype, conv.shape⟩ := by
  simp only [bench_workload] at hev
  rw [hg] at hev
  dsimp only [] at hev
  by_cases hm : (schedule == "manual") = true <;>
    first
      | rw [if_pos hm] at hev
      | rw [if_neg hm] at hev
  all_goals repeat' split at hev
  all_goals simp at hev
  all_goals
    rcases build_and_run_mem hev with ⟨g, hg2⟩ | ⟨s, hs⟩ | ⟨s, hs⟩ | ⟨s, hs⟩ | hh | hh
      | ⟨m, hm2⟩ | hh | ⟨c, hc2⟩ | hh <;> simp_all

theorem bench_workload_hist_presence (fns : ExtFuns) (re : RunExt)
    (key target target_host : String) (dtype : DataType) (layout : String)
    (remote : Bool) (idx : Nat) (w : Workload) (rng : Nat) :
    Event.applyHistoryBest ("../configs/" ++ key ++ "." ++ "convolutions.log")
      ∈ (bench_workload fns re key target target_host dtype layout remote "manual"
          idx w rng).1 := by
  simp only [bench_workload]
  rw [if_pos (by rfl : (("manual" : String) == "manual") = true)]
  repeat' split
  all_goals simp


/-- Counterexample for C6: in `manual` mode the `with apply_history_best`
block dynamically encloses the whole per-workload body — including the
`tvm.build` call inside `build_and_run` — so compilation runs with the
history context active (`buildStep true`), refuting the claim that the
context wraps operator/schedule construction only and not compilation. -/
theorem C6_history_around_compile_counterexample :
    Event.buildStep true "0_standard_3_56_32_64"
      ∈ (bench_workload simpleFuns okRun "android" "llvm" "llvm-host"
          ⟨"int8", "int8"⟩ "NCHW" false "manual" 0 sampleW 0).1 := by decide

/-- C6 (amended): when `schedule` is `manual` the autotuning-history context
(`apply_history_best` on `../configs/<key>.convolutions.log`) is entered
once per workload and stays active around BOTH schedule construction and
compilation; with any other strategy no history lookup happens anywhere and
both steps run with the context inactive. -/
theorem C6_history_context_scope (fns : ExtFuns) (re : RunExt)
    (key target target_host : String) (dtype : DataType) (layout : String)
    (remote : Bool) (schedule : String) (idx : Nat) (w : Workload) (rng : Nat) :
    (∀ b, Event.scheduleConstruct b ∈ (bench_workload fns re key target target_host
        dtype layout remote schedule idx w rng).1 → b = (schedule == "manual"))
    ∧ (∀ b f, Event.buildStep b f ∈ (bench_workload fns re key target target_host
        dtype layout remote schedule idx w rng).1 → b = (schedule == "manual"))
    ∧ (∀ n, Event.applyHistoryBest n ∈ (bench_workload fns re key target target_host
        dtype layout remote schedule idx w rng).1 →
        (schedule == "manual") = true
        ∧ n = "../configs/" ++ key ++ "." ++ "convolutions.log")
    ∧ (schedule = "manual" →
        Event.applyHistoryBest ("../configs/" ++ key ++ "." ++ "convolutions.log")
          ∈ (bench_workload fns re key target target_host dtype layout remote schedule
              idx w rng).1) :=
  ⟨fun _ hev => bench_workload_schedConstruct_flag hev,
   fun _ _ hev => bench_workload_buildStep_flag hev,
   fun _ hev => bench_workload_applyHist hev,
   fun hsch => hsch ▸ bench_workload_hist_presence fns re key target target_host dtype
     layout remote idx w rng⟩

/-- Witness for C6 (amended) at a concrete manual-mode run: the compile
step's context flag equals the manual test, and the history context entry
with the fixed log name is in the trace. -/
theorem C6_history_context_scope_witness :
    true = (("manual" : String) == "manual")
    ∧ Event.applyHistoryBest ("../configs/" ++ "android" ++ "." ++ "convolutions.log")
      ∈ (bench_workload simpleFuns okRun "android" "llvm" "llvm-host"
          ⟨"int8", "int8"⟩ "NCHW" false "manual" 0 sampleW 0).1 :=
  ⟨(C6_history_context_scope simpleFuns okRun "android" "llvm" "llvm-host"
      ⟨"int8", "int8"⟩ "NCHW" false "manual" 0 sampleW 0).2.1 true
      "0_standard_3_56_32_64" (by decide),
   (C6_history_context_scope simpleFuns okRun "android" "llvm" "llvm-host"
      ⟨"int8", "int8"⟩ "NCHW" false "manual" 0 sampleW 0).2.2.2 rfl⟩

/-- Counterexample for C7: one configuration with two workloads performs
four `np.random.random` draws — two per workload, inside the workload loop —
and the two workloads' input buffers are bound to different draws (draw 0
vs draw 2), so there is no single per-configuration generation feeding
every workload. -/
theorem C7_per_config_random_counterexample :
    ((bench_loop simpleFuns (fun _ => okRun) "android" "llvm" "llvm-host"
        ⟨"float32", "float32"⟩ "NCHW" false "auto" 0 0 [sampleW, sampleDW]).1).countP
        isRandomGen = 4
    ∧ Event.bindBuffers 0 ⟨.random 0, "float32", [1, 32, 56, 56]⟩
        ⟨.random 1, "float32", [64, 32, 3, 3]⟩ ⟨.zeros, "float32", [1, 8, 56, 56]⟩
      ∈ (bench_loop simpleFuns (fun _ => okRun) "android" "llvm" "llvm-host"
          ⟨"float32", "float32"⟩ "NCHW" false "auto" 0 0 [sampleW, sampleDW]).1
    ∧ Event.bindBuffers 1 ⟨.random 2, "float32", [1, 32, 28, 28]⟩
        ⟨.random 3, "float32", [32, 32, 3, 3]⟩ ⟨.zeros, "float32", [1, 8, 28, 28]⟩
      ∈ (bench_loop simpleFuns (fun _ => okRun) "android" "llvm" "llvm-host"
          ⟨"float32", "float32"⟩ "NCHW" false "auto" 0 0 [sampleW, sampleDW]).1
    ∧ BufData.random 0 ≠ BufData.random 2 := by decide

/-- C7 (amended): the uniform-random input and filter data are generated
once per workload (not once per configuration), as the first two draws of
each loop iteration — before schedule construction and build — and that
workload's buffers are bound to exactly those two fresh draws; the draw
counter advances by two per workload, so successive workloads use disjoint
draws. -/
theorem C7_random_per_workload (fns : ExtFuns) (re : RunExt)
    (key target target_host : String) (dtype : DataType) (layout : String)
    (remote : Bool) (schedule : String) (idx : Nat) (w : Workload) (rng : Nat) :
    ((bench_workload fns re key target target_host dtype layout remote schedule
        idx w rng).1).take 3
      = [Event.workloadStart idx, Event.randomGen rng, Event.randomGen (rng + 1)]
    ∧ ((bench_workload fns re key target target_host dtype layout remote schedule
        idx w rng).1).countP isRandomGen = 2
    ∧ (∀ j i f o, Event.bindBuffers j i f o ∈ (bench_workload fns re key target
        target_host dtype layout remote schedule idx w rng).1 →
        i.data = BufData.random rng ∧ f.data = BufData.random (rng + 1)
        ∧ o.data = BufData.zeros)
    ∧ (bench_workload fns re key target target_host dtype layout remote schedule
        idx w rng).2 = rng + 2 := by
  refine ⟨?_, (bench_workload_counts fns re key target target_host dtype layout remote
      schedule idx w rng).2.1,
    fun j i f o hev => (bench_workload_bind_data hev).2,
    bench_workload_snd fns re key target target_host dtype layout remote schedule
      idx w rng⟩
  simp only [bench_workload]
  by_cases hm : (schedule == "manual") = true <;>
    first
      | rw [if_pos hm]
      | rw [if_neg hm]
  all_goals repeat' split
  all_goals simp

/-- Witness for C7 (amended) at a concrete run: the trace opens with the
two draws, and the concrete bind event uses exactly them. -/
theorem C7_random_per_workload_witness :
    ((bench_workload simpleFuns okRun "android" "llvm" "llvm-host"
        ⟨"float32", "float32"⟩ "NCHW" false "auto" 0 sampleW 5).1).take 3
      = [Event.workloadStart 0, Event.randomGen 5, Event.randomGen 6]
    ∧ (⟨BufData.random 5, "float32", [1, 32, 56, 56]⟩ : NDArray).data
        = BufData.random 5
      ∧ (⟨BufData.random 6, "float32", [64, 32, 3, 3]⟩ : NDArray).data
        = BufData.random 6
      ∧ (⟨BufData.zeros, "float32", [1, 8, 56, 56]⟩ : NDArray).data = BufData.zeros :=
  ⟨(C7_random_per_workload simpleFuns okRun "android" "llvm" "llvm-host"
      ⟨"float32", "float32"⟩ "NCHW" false "auto" 0 sampleW 5).1,
   (C7_random_per_workload simpleFuns okRun "android" "llvm" "llvm-host"
      ⟨"float32", "float32"⟩ "NCHW" false "auto" 0 sampleW 5).2.2.1 0
      ⟨BufData.random 5, "float32", [1, 32, 56, 56]⟩
      ⟨BufData.random 6, "float32", [64, 32, 3, 3]⟩
      ⟨BufData.zeros, "float32", [1, 8, 56, 56]⟩ (by decide)⟩


/-- C2: exceptions raised after a successful `tvm.build` — during library
export, remote upload, remote module load, warmup kernel invocation, or the
timed evaluation — have no local handler inside `build_and_run` (they
escape it), and the timing step in particular shares the invocation
failures' path: whatever escapes `build_and_run` is caught by the
per-workload `try` in `bench_tvm`, logged as an exception plus a
`run skip` line, and the loop continues with the next workload. -/
theorem C2_run_failures_share_one_handler (fns : ExtFuns) (re : RunExt)
    (key target target_host : String) (dtype : DataType) (layout : String)
    (remote : Bool) (schedule : String) (idx : Nat) (w : Workload)
    (ws : List Workload) (rng : Nat) (ext : Nat → RunExt) (conv : Tensor) (ts : Sched)
    (os : Nat)
    (hg : get_conv_ts re.topi
        ⟨(fns.get_input_and_filter_shape layout w.space w.input_channel
            w.output_channel w.kernel w.depthwise).1, dtype.tvm_type⟩
        ⟨(fns.get_input_and_filter_shape layout w.space w.input_channel
            w.output_channel w.kernel w.depthwise).2, dtype.tvm_type⟩
        w.stride w.pad layout dtype.tvm_type w.depthwise = .ok (conv, ts))
    (hos : output_space_of layout conv.shape = .ok os) :
    (∀ e phase i ih fh k sp ic oc s p lay ti tf tout ts2 cv tg th wu rn op hist,
      re.tvmBuild = .ok () → re.exportLib = .error e →
      (build_and_run re phase i ih fh k sp ic oc s p lay ti tf tout ts2 cv tg th
        wu rn op hist true).2 = some e)
    ∧ (∀ e phase i ih fh k sp ic oc s p lay ti tf tout ts2 cv tg th wu rn op hist,
      re.tvmBuild = .ok () → re.exportLib = .ok () → re.upload = .error e →
      (build_and_run re phase i ih fh k sp ic oc s p lay ti tf tout ts2 cv tg th
        wu rn op hist true).2 = some e)
    ∧ (∀ e phase i ih fh k sp ic oc s p lay ti tf tout ts2 cv tg th wu rn op hist,
      re.tvmBuild = .ok () → re.exportLib = .ok () → re.upload = .ok () →
      re.load_module = .error e →
      (build_and_run re phase i ih fh k sp ic oc s p lay ti tf tout ts2 cv tg th
        wu rn op hist true).2 = some e)
    ∧ (∀ e phase i ih fh k sp ic oc s p lay ti tf tout ts2 cv tg th wu rn op hist rm,
      re.tvmBuild = .ok () →
      (rm = false ∨ (re.exportLib = .ok () ∧ re.upload = .ok () ∧ re.load_module = .ok ())) →
      wu ≠ 0 → re.invokeRes = .error e →
      (build_and_run re phase i ih fh k sp ic oc s p lay ti tf tout ts2 cv tg th
        wu rn op hist rm).2 = some e)
    ∧ (∀ e phase i ih fh k sp ic oc s p lay ti tf tout ts2 cv tg th wu rn op hist rm,
      re.tvmBuild = .ok () →
      (rm = false ∨ (re.exportLib = .ok () ∧ re.upload = .ok () ∧ re.load_module = .ok ())) →
      (re.invokeRes = .ok () ∨ wu = 0) → re.time_evaluator = .error e →
      (build_and_run re phase i ih fh k sp ic oc s p lay ti tf tout ts2 cv tg th
        wu rn op hist rm).2 = some e)
    ∧ (∀ e,
      (build_and_run re (if w.depthwise then "depthwise" else "standard") idx
        ⟨(fns.get_input_and_filter_shape layout w.space w.input_channel
            w.output_channel w.kernel w.depthwise).1, dtype.tvm_type⟩
        ⟨(fns.get_input_and_filter_shape layout w.space w.input_channel
            w.output_channel w.kernel w.depthwise).2, dtype.tvm_type⟩
        w.kernel w.space w.input_channel w.output_channel w.stride w.pad layout
        ⟨BufData.random rng, dtype.np_type,
          (fns.get_input_and_filter_shape layout w.space w.input_channel
            w.output_channel w.kernel w.depthwise).1⟩
        ⟨BufData.random (rng + 1), dtype.np_type,
          (fns.get_input_and_filter_shape layout w.space w.input_channel
            w.output_channel w.kernel w.depthwise).2⟩
        ⟨BufData.zeros, conv.dtype, conv.shape⟩ ts conv target target_host
        w.warmupCount w.runCount
        (fns.get_num_ops os w.input_channel w.output_channel w.kernel w.depthwise)
        (schedule == "manual") remote).2 = some e →
      bench_workload fns re key target target_host dtype layout remote schedule idx w rng
        = (([Event.workloadStart idx, Event.randomGen rng, Event.randomGen (rng + 1)]
            ++ (if (schedule == "manual") = true then
                  [Event.applyHistoryBest ("../configs/" ++ key ++ "." ++ "convolutions.log")]
                else []) ++ [Event.scheduleConstruct (schedule == "manual")])
            ++ [Event.bindBuffers idx
                ⟨BufData.random rng, dtype.np_type,
                  (fns.get_input_and_filter_shape layout w.space w.input_channel
                    w.output_channel w.kernel w.depthwise).1⟩
                ⟨BufData.random (rng + 1), dtype.np_type,
                  (fns.get_input_and_filter_shape layout w.space w.input_channel
                    w.output_channel w.kernel w.depthwise).2⟩
                ⟨BufData.zeros, conv.dtype, conv.shape⟩]
            ++ (build_and_run re (if w.depthwise then "depthwise" else "standard") idx
                ⟨(fns.get_input_and_filter_shape layout w.space w.input_channel
                    w.output_channel w.kernel w.depthwise).1, dtype.tvm_type⟩
                ⟨(fns.get_input_and_filter_shape layout w.space w.input_channel
                    w.output_channel w.kernel w.depthwise).2, dtype.tvm_type⟩
                w.kernel w.space w.input_channel w.output_channel w.stride w.pad layout
                ⟨BufData.random rng, dtype.np_type,
                  (fns.get_input_and_filter_shape layout w.space w.input_channel
                    w.output_channel w.kernel w.depthwise).1⟩
                ⟨BufData.random (rng + 1), dtype.np_type,
                  (fns.get_input_and_filter_shape layout w.space w.input_channel
                    w.output_channel w.kernel w.depthwise).2⟩
                ⟨BufData.zeros, conv.dtype, conv.shape⟩ ts conv target target_host
                w.warmupCount w.runCount
                (fns.get_num_ops os w.input_channel w.output_channel w.kernel w.depthwise)
                (schedule == "manual") remote).1
            ++ [Event.printExc e,
                Event.printLine (LogLine.runSkip
                  (if w.depthwise then "depthwise" else "standard") target dtype.tvm_type
                  layout
                  (fns.get_input_and_filter_shape layout w.space w.input_channel
                    w.output_channel w.kernel w.depthwise).1
                  (fns.get_input_and_filter_shape layout w.space w.input_channel
                    w.output_channel w.kernel w.depthwise).2)], rng + 2))
    ∧ bench_loop fns ext key target target_host dtype layout remote schedule idx rng
        (w :: ws)
      = ((bench_workload fns (ext idx) key target target_host dtype layout remote
            schedule idx w rng).1
          ++ (bench_loop fns ext key target target_host dtype layout remote schedule
              (idx + 1)
              (bench_workload fns (ext idx) key target target_host dtype layout remote
                schedule idx w rng).2 ws).1,
         (bench_loop fns ext key target target_host dtype layout remote schedule
            (idx + 1)
            (bench_workload fns (ext idx) key target target_host dtype layout remote
              schedule idx w rng).2 ws).2) := by
  refine ⟨?_, ?_, ?_, ?_, ?_, ?_, ?_⟩
  · intro e phase i ih fh k sp ic oc s p lay ti tf tout ts2 cv tg th wu rn op hist hb he
    simp [build_and_run, andThen, hb, he]
  · intro e phase i ih fh k sp ic oc s p lay ti tf tout ts2 cv tg th wu rn op hist hb he hu
    simp [build_and_run, andThen, hb, he, hu]
  · intro e phase i ih fh k sp ic oc s p lay ti tf tout ts2 cv tg th wu rn op hist hb he hu hl
    simp [build_and_run, andThen, hb, he, hu, hl]
  · intro e phase i ih fh k sp ic oc s p lay ti tf tout ts2 cv tg th wu rn op hist rm hb hch hw hi
    rcases hch with rfl | ⟨he, hu, hl⟩
    · simp [build_and_run, andThen, hb, hi, hw]
    · cases rm <;> simp [build_and_run, andThen, hb, he, hu, hl, hi, hw]
  · intro e phase i ih fh k sp ic oc s p lay ti tf tout ts2 cv tg th wu rn op hist rm hb hch hi ht
    rcases hch with rfl | ⟨he, hu, hl⟩ <;> rcases hi with hi | rfl
    · by_cases hwu : wu = 0 <;> simp [build_and_run, andThen, hb, hi, ht, hwu]
    · simp [build_and_run, andThen, hb, ht]
    · by_cases hwu : wu = 0 <;> cases rm <;>
        simp [build_and_run, andThen, hb, he, hu, hl, hi, ht, hwu]
    · cases rm <;> simp [build_and_run, andThen, hb, he, hu, hl, ht]
  · intro e hbr
    simp only [bench_workload]
    rw [hg]
    dsimp only []
    rw [hos]
    dsimp only []
    rw [hbr]
  · simp only [bench_loop]


/-- Witness for C2 at a concrete remote-mode run whose timed evaluation
raises: the exception escapes `build_and_run` and the workload handler
prints the `run skip` line. -/
theorem C2_run_failures_share_one_handler_witness :
    (build_and_run timeFailRun "standard" 0 ⟨[1, 32, 56, 56], "float32"⟩
        ⟨[64, 32, 3, 3], "float32"⟩ 3 56 32 64 1 1 "NCHW"
        ⟨BufData.random 0, "float32", [1, 32, 56, 56]⟩
        ⟨BufData.random 1, "float32", [64, 32, 3, 3]⟩
        ⟨BufData.zeros, "float32", [1, 8, 56, 56]⟩ ⟨0⟩ ⟨[1, 8, 56, 56], "float32"⟩
        "llvm" "llvm-host" 2 10 99 false true).2 = some "timeout"
    ∧ Event.printLine (LogLine.runSkip "standard" "llvm" "float32" "NCHW"
        [1, 32, 56, 56] [64, 32, 3, 3])
      ∈ (bench_workload simpleFuns timeFailRun "android" "llvm" "llvm-host"
          ⟨"float32", "float32"⟩ "NCHW" true "auto" 0 sampleW 0).1 := by
  have hc := C2_run_failures_share_one_handler simpleFuns timeFailRun "android" "llvm"
    "llvm-host" ⟨"float32", "float32"⟩ "NCHW" true "auto" 0 sampleW [] 0
    (fun _ => timeFailRun) ⟨[1, 8, 56, 56], "float32"⟩ ⟨0⟩ 56 rfl rfl
  refine ⟨?_, ?_⟩
  · exact hc.2.2.2.2.1 "timeout" "standard" 0 ⟨[1, 32, 56, 56], "float32"⟩
      ⟨[64, 32, 3, 3], "float32"⟩ 3 56 32 64 1 1 "NCHW"
      ⟨BufData.random 0, "float32", [1, 32, 56, 56]⟩
      ⟨BufData.random 1, "float32", [64, 32, 3, 3]⟩
      ⟨BufData.zeros, "float32", [1, 8, 56, 56]⟩ ⟨0⟩ ⟨[1, 8, 56, 56], "float32"⟩
      "llvm" "llvm-host" 2 10 99 false true rfl
      (Or.inr ⟨rfl, rfl, rfl⟩) (Or.inl rfl) rfl
  · have h6 := hc.2.2.2.2.2.1 "timeout" rfl
    rw [h6]
    simp [sampleW, simpleFuns]


theorem build_and_run_buildfail_eq {re : RunExt} {phase : String} {idx : Nat}
    {input_holder filter_holder : Tensor}
    {kernel space input_channel output_channel stride pad : Nat} {layout : String}
    {tvm_input tvm_filter tvm_output : NDArray} {ts : Sched} {conv : Tensor}
    {target target_host : String} {warmup runNumber ops : Nat} {histActive remote : Bool} {e : String}
    (hb : re.tvmBuild = .error e) :
    build_and_run re phase idx input_holder filter_holder kernel space
      input_channel output_channel stride pad layout tvm_input tvm_filter tvm_output
      ts conv target target_host warmup runNumber ops histActive remote
    = ([Event.buildStep histActive (toString idx ++ "_" ++ phase ++ "_" ++ toString kernel ++ "_" ++
      toString space ++ "_" ++ toString input_channel ++ "_" ++ toString output_channel),
        Event.printExc e,
        Event.printLine (LogLine.buildFail phase target tvm_input.dtype layout stride pad
          input_holder.shape filter_holder.shape)], none) := by
  simp [build_and_run, hb]

theorem build_and_run_success_eq {re : RunExt} {phase : String} {idx : Nat}
    {input_holder filter_holder : Tensor}
    {kernel space input_channel output_channel stride pad : Nat} {layout : String}
    {tvm_input tvm_filter tvm_output : NDArray} {ts : Sched} {conv : Tensor}
    {target target_host : String} {warmup runNumber ops : Nat} {histActive remote : Bool} {cost : Nat}
    (hb : re.tvmBuild = .ok ()) (hch : remote = false ∨ (re.exportLib = .ok () ∧ re.upload = .ok ()
      ∧ re.load_module = .ok ()))
    (hin : re.invokeRes = .ok () ∨ warmup = 0)
    (ht : re.time_evaluator = .ok cost) (hco : re.correctnessRes = .ok ()) :
    build_and_run re phase idx input_holder filter_holder kernel space
      input_channel output_channel stride pad layout tvm_input tvm_filter tvm_output
      ts conv target target_host warmup runNumber ops histActive remote
    = ([Event.buildStep histActive (toString idx ++ "_" ++ phase ++ "_" ++ toString kernel ++ "_" ++
      toString space ++ "_" ++ toString input_channel ++ "_" ++ toString output_channel)]
        ++ (if remote = true then
              [Event.exportStep ((toString idx ++ "_" ++ phase ++ "_" ++ toString kernel ++ "_" ++
      toString space ++ "_" ++ toString input_channel ++ "_" ++ toString output_channel) ++ ".so"),
               Event.uploadStep ((toString idx ++ "_" ++ phase ++ "_" ++ toString kernel ++ "_" ++
      toString space ++ "_" ++ toString input_channel ++ "_" ++ toString output_channel) ++ ".so"),
               Event.loadStep ((toString idx ++ "_" ++ phase ++ "_" ++ toString kernel ++ "_" ++
      toString space ++ "_" ++ toString input_channel ++ "_" ++ toString output_channel) ++ ".so")]
            else [])
        ++ List.replicate warmup (Event.invoke tvm_input tvm_filter tvm_output)
        ++ [Event.timeEval runNumber,
            Event.printLine (LogLine.success phase target tvm_input.dtype layout stride
              pad input_holder.shape filter_holder.shape ops cost),
            Event.correctness input_channel output_channel kernel stride pad
              tvm_input tvm_filter tvm_output tvm_input.dtype layout
              (phase == "depthwise")], none) := by
  rcases hch with hrm | ⟨he, hu, hl⟩ <;> rcases hin with hin | hwu0 <;>
    (try subst hrm) <;> (try cases hrem : remote) <;>
    by_cases hwu : warmup = 0 <;>
    simp_all [build_and_run, andThen]

theorem build_and_run_exportfail_eq {re : RunExt} {phase : String} {idx : Nat}
    {input_holder filter_holder : Tensor}
    {kernel space input_channel output_channel stride pad : Nat} {layout : String}
    {tvm_input tvm_filter tvm_output : NDArray} {ts : Sched} {conv : Tensor}
    {target target_host : String} {warmup runNumber ops : Nat} {histActive remote : Bool} {e : String}
    (hb : re.tvmBuild = .ok ()) (hrm : remote = true) (he : re.exportLib = .error e) :
    build_and_run re phase idx input_holder filter_holder kernel space
      input_channel output_channel stride pad layout tvm_input tvm_filter tvm_output
      ts conv target target_host warmup runNumber ops histActive remote
    = ([Event.buildStep histActive (toString idx ++ "_" ++ phase ++ "_" ++ toString kernel ++ "_" ++
      toString space ++ "_" ++ toString input_channel ++ "_" ++ toString output_channel),
        Event.exportStep ((toString idx ++ "_" ++ phase ++ "_" ++ toString kernel ++ "_" ++
      toString space ++ "_" ++ toString input_channel ++ "_" ++ toString output_channel) ++ ".so")], some e) := by
  subst hrm
  simp [build_and_run, andThen, hb, he]

theorem build_and_run_uploadfail_eq {re : RunExt} {phase : String} {idx : Nat}
    {input_holder filter_holder : Tensor}
    {kernel space input_channel output_channel stride pad : Nat} {layout : String}
    {tvm_input tvm_filter tvm_output : NDArray} {ts : Sched} {conv : Tensor}
    {target target_host : String} {warmup runNumber ops : Nat} {histActive remote : Bool} {e : String}
    (hb : re.tvmBuild = .ok ()) (hrm : remote = true) (he : re.exportLib = .ok ())
    (hu : re.upload = .error e) :
    build_and_run re phase idx input_holder filter_holder kernel space
      input_channel output_channel stride pad layout tvm_input tvm_filter tvm_output
      ts conv target target_host warmup runNumber ops histActive remote
    = ([Event.buildStep histActive (toString idx ++ "_" ++ phase ++ "_" ++ toString kernel ++ "_" ++
      toString space ++ "_" ++ toString input_channel ++ "_" ++ toString output_channel),
        Event.exportStep ((toString idx ++ "_" ++ phase ++ "_" ++ toString kernel ++ "_" ++
      toString space ++ "_" ++ toString input_channel ++ "_" ++ toString output_channel) ++ ".so"),
        Event.uploadStep ((toString idx ++ "_" ++ phase ++ "_" ++ toString kernel ++ "_" ++
      toString space ++ "_" ++ toString input_channel ++ "_" ++ toString output_channel) ++ ".so")], some e) := by
  subst hrm
  simp [build_and_run, andThen, hb, he, hu]

theorem build_and_run_loadfail_eq {re : RunExt} {phase : String} {idx : Nat}
    {input_holder filter_holder : Tensor}
    {kernel space input_channel output_channel stride pad : Nat} {layout : String}
    {tvm_input tvm_filter tvm_output : NDArray} {ts : Sched} {conv : Tensor}
    {target target_host : String} {warmup runNumber ops : Nat} {histActive remote : Bool} {e : String}
    (hb : re.tvmBuild = .ok ()) (hrm : remote = true) (he : re.exportLib = .ok ())
    (hu : re.upload = .ok ()) (hl : re.load_module = .error e) :
    build_and_run re phase idx input_holder filter_holder kernel space
      input_channel output_channel stride pad layout tvm_input tvm_filter tvm_output
      ts conv target target_host warmup runNumber ops histActive remote
    = ([Event.buildStep histActive (toString idx ++ "_" ++ phase ++ "_" ++ toString kernel ++ "_" ++
      toString space ++ "_" ++ toString input_channel ++ "_" ++ toString output_channel),
        Event.exportStep ((toString idx ++ "_" ++ phase ++ "_" ++ toString kernel ++ "_" ++
      toString space ++ "_" ++ toString input_channel ++ "_" ++ toString output_channel) ++ ".so"),
        Event.uploadStep ((toString idx ++ "_" ++ phase ++ "_" ++ toString kernel ++ "_" ++
      toString space ++ "_" ++ toString input_channel ++ "_" ++ toString output_channel) ++ ".so"),
        Event.loadStep ((toString idx ++ "_" ++ phase ++ "_" ++ toString kernel ++ "_" ++
      toString space ++ "_" ++ toString input_channel ++ "_" ++ toString output_channel) ++ ".so")], some e) := by
  subst hrm
  simp [build_and_run, andThen, hb, he, hu, hl]

theorem build_and_run_invokefail_eq {re : RunExt} {phase : String} {idx : Nat}
    {input_holder filter_holder : Tensor}
    {kernel space input_channel output_channel stride pad : Nat} {layout : String}
    {tvm_input tvm_filter tvm_output : NDArray} {ts : Sched} {conv : Tensor}
    {target target_host : String} {warmup runNumber ops : Nat} {histActive remote : Bool} {e : String}
    (hb : re.tvmBuild = .ok ()) (hch : remote = false ∨ (re.exportLib = .ok () ∧ re.upload = .ok ()
      ∧ re.load_module = .ok ()))
    (hwu : warmup ≠ 0) (hi : re.invokeRes = .error e) :
    build_and_run re phase idx input_holder filter_holder kernel space
      input_channel output_channel stride pad layout tvm_input tvm_filter tvm_output
      ts conv target target_host warmup runNumber ops histActive remote
    = ([Event.buildStep histActive (toString idx ++ "_" ++ phase ++ "_" ++ toString kernel ++ "_" ++
      toString space ++ "_" ++ toString input_channel ++ "_" ++ toString output_channel)]
        ++ (if remote = true then
              [Event.exportStep ((toString idx ++ "_" ++ phase ++ "_" ++ toString kernel ++ "_" ++
      toString space ++ "_" ++ toString input_channel ++ "_" ++ toString output_channel) ++ ".so"),
               Event.uploadStep ((toString idx ++ "_" ++ phase ++ "_" ++ toString kernel ++ "_" ++
      toString space ++ "_" ++ toString input_channel ++ "_" ++ toString output_channel) ++ ".so"),
               Event.loadStep ((toString idx ++ "_" ++ phase ++ "_" ++ toString kernel ++ "_" ++
      toString space ++ "_" ++ toString input_channel ++ "_" ++ toString output_channel) ++ ".so")]
            else [])
        ++ [Event.invoke tvm_input tvm_filter tvm_output], some e) := by
  rcases hch with hrm | ⟨he, hu, hl⟩ <;> (try subst hrm) <;> (try cases hrem : remote) <;>
    simp_all [build_and_run, andThen]

theorem build_and_run_timefail_eq {re : RunExt} {phase : String} {idx : Nat}
    {input_holder filter_holder : Tensor}
    {kernel space input_channel output_channel stride pad : Nat} {layout : String}
    {tvm_input tvm_filter tvm_output : NDArray} {ts : Sched} {conv : Tensor}
    {target target_host : String} {warmup runNumber ops : Nat} {histActive remote : Bool} {e : String}
    (hb : re.tvmBuild = .ok ()) (hch : remote = false ∨ (re.exportLib = .ok () ∧ re.upload = .ok ()
      ∧ re.load_module = .ok ()))
    (hin : re.invokeRes = .ok () ∨ warmup = 0)
    (ht : re.time_evaluator = .error e) :
    build_and_run re phase idx input_holder filter_holder kernel space
      input_channel output_channel stride pad layout tvm_input tvm_filter tvm_output
      ts conv target target_host warmup runNumber ops histActive remote
    = ([Event.buildStep histActive (toString idx ++ "_" ++ phase ++ "_" ++ toString kernel ++ "_" ++
      toString space ++ "_" ++ toString input_channel ++ "_" ++ toString output_channel)]
        ++ (if remote = true then
              [Event.exportStep ((toString idx ++ "_" ++ phase ++ "_" ++ toString kernel ++ "_" ++
      toString space ++ "_" ++ toString input_channel ++ "_" ++ toString output_channel) ++ ".so"),
               Event.uploadStep ((toString idx ++ "_" ++ phase ++ "_" ++ toString kernel ++ "_" ++
      toString space ++ "_" ++ toString input_channel ++ "_" ++ toString output_channel) ++ ".so"),
               Event.loadStep ((toString idx ++ "_" ++ phase ++ "_" ++ toString kernel ++ "_" ++
      toString space ++ "_" ++ toString input_channel ++ "_" ++ toString output_channel) ++ ".so")]
            else [])
        ++ List.replicate warmup (Event.invoke tvm_input tvm_filter tvm_output)
        ++ [Event.timeEval runNumber], some e) := by
  rcases hch with hrm | ⟨he, hu, hl⟩ <;> rcases hin with hin | hwu0 <;>
    (try subst hrm) <;> (try cases hrem : remote) <;>
    by_cases hwu : warmup = 0 <;>
    simp_all [build_and_run, andThen]


theorem build_and_run_corrfail_eq {re : RunExt} {phase : String} {idx : Nat}
    {input_holder filter_holder : Tensor}
    {kernel space input_channel output_channel stride pad : Nat} {layout : String}
    {tvm_input tvm_filter tvm_output : NDArray} {ts : Sched} {conv : Tensor}
    {target target_host : String} {warmup runNumber ops : Nat} {histActive remote : Bool} {e : String} {cost : Nat}
    (hb : re.tvmBuild = .ok ()) (hch : remote = false ∨ (re.exportLib = .ok () ∧ re.upload = .ok ()
      ∧ re.load_module = .ok ()))
    (hin : re.invokeRes = .ok () ∨ warmup = 0)
    (ht : re.time_evaluator = .ok cost) (hco : re.correctnessRes = .error e) :
    build_and_run re phase idx input_holder filter_holder kernel space
      input_channel output_channel stride pad layout tvm_input tvm_filter tvm_output
      ts conv target target_host warmup runNumber ops histActive remote
    = ([Event.buildStep histActive (toString idx ++ "_" ++ phase ++ "_" ++ toString kernel ++ "_" ++
      toString space ++ "_" ++ toString input_channel ++ "_" ++ toString output_channel)]
        ++ (if remote = true then
              [Event.exportStep ((toString idx ++ "_" ++ phase ++ "_" ++ toString kernel ++ "_" ++
      toString space ++ "_" ++ toString input_channel ++ "_" ++ toString output_channel) ++ ".so"),
               Event.uploadStep ((toString idx ++ "_" ++ phase ++ "_" ++ toString kernel ++ "_" ++
      toString space ++ "_" ++ toString input_channel ++ "_" ++ toString output_channel) ++ ".so"),
               Event.loadStep ((toString idx ++ "_" ++ phase ++ "_" ++ toString kernel ++ "_" ++
      toString space ++ "_" ++ toString input_channel ++ "_" ++ toString output_channel) ++ ".so")]
            else [])
        ++ List.replicate warmup (Event.invoke tvm_input tvm_filter tvm_output)
        ++ [Event.timeEval runNumber,
            Event.printLine (LogLine.success phase target tvm_input.dtype layout stride
              pad input_holder.shape filter_holder.shape ops cost),
            Event.correctness input_channel output_channel kernel stride pad
              tvm_input tvm_filter tvm_output tvm_input.dtype layout
              (phase == "depthwise")], some e) := by
  rcases hch with hrm | ⟨he, hu, hl⟩ <;> rcases hin with hin | hwu0 <;>
    (try subst hrm) <;> (try cases hrem : remote) <;>
    by_cases hwu : warmup = 0 <;>
    simp_all [build_and_run, andThen]

/-- C5: `test_correctness` is called exactly once after every successful,
timed run — with the depthwise flag equal to the workload's depthwise flag
and with the device output array typed in the (possibly promoted)
convolution output dtype — and it is never called when compilation, the
remote transfer chain, the warmup invocation, or the timing step fails;
those failures also print no cost line. -/
theorem C5_correctness_called_once_after_success (fns : ExtFuns) (re : RunExt)
    (key target target_host : String) (dtype : DataType) (layout : String)
    (remote : Bool) (schedule : String) (idx : Nat) (w : Workload) (rng : Nat)
    (conv : Tensor) (ts : Sched) (os : Nat)
    (hg : get_conv_ts re.topi
        ⟨(fns.get_input_and_filter_shape layout w.space w.input_channel
            w.output_channel w.kernel w.depthwise).1, dtype.tvm_type⟩
        ⟨(fns.get_input_and_filter_shape layout w.space w.input_channel
            w.output_channel w.kernel w.depthwise).2, dtype.tvm_type⟩
        w.stride w.pad layout dtype.tvm_type w.depthwise = .ok (conv, ts))
    (hos : output_space_of layout conv.shape = .ok os) :
    (∀ cost, re.tvmBuild = .ok () →
      (remote = false ∨ (re.exportLib = .ok () ∧ re.upload = .ok () ∧ re.load_module = .ok ())) →
      (re.invokeRes = .ok () ∨ w.warmupCount = 0) →
      re.time_evaluator = .ok cost →
      ((bench_workload fns re key target target_host dtype layout remote schedule
        idx w rng).1).countP isCorrectnessCall = 1
      ∧ ((bench_workload fns re key target target_host dtype layout remote schedule
        idx w rng).1).countP isSuccessLine = 1
      ∧ Event.correctness w.input_channel w.output_channel w.kernel w.stride w.pad
          ⟨BufData.random rng, dtype.np_type,
          (fns.get_input_and_filter_shape layout w.space w.input_channel
            w.output_channel w.kernel w.depthwise).1⟩
          ⟨BufData.random (rng + 1), dtype.np_type,
          (fns.get_input_and_filter_shape layout w.space w.input_channel
            w.output_channel w.kernel w.depthwise).2⟩
          ⟨BufData.zeros, conv.dtype, conv.shape⟩ dtype.np_type layout w.depthwise ∈ (bench_workload fns re key target target_host dtype layout remote schedule
        idx w rng).1)
    ∧ (∀ e, re.tvmBuild = .error e →
      ((bench_workload fns re key target target_host dtype layout remote schedule
        idx w rng).1).countP isCorrectnessCall = 0 ∧ ((bench_workload fns re key target target_host dtype layout remote schedule
        idx w rng).1).countP isSuccessLine = 0)
    ∧ (∀ e, re.tvmBuild = .ok () → remote = true →
      (re.exportLib = .error e
        ∨ (re.exportLib = .ok () ∧ re.upload = .error e)
        ∨ (re.exportLib = .ok () ∧ re.upload = .ok () ∧ re.load_module = .error e)) →
      ((bench_workload fns re key target target_host dtype layout remote schedule
        idx w rng).1).countP isCorrectnessCall = 0 ∧ ((bench_workload fns re key target target_host dtype layout remote schedule
        idx w rng).1).countP isSuccessLine = 0)
    ∧ (∀ e, re.tvmBuild = .ok () →
      (remote = false ∨ (re.exportLib = .ok () ∧ re.upload = .ok () ∧ re.load_module = .ok ())) →
      w.warmupCount ≠ 0 → re.invokeRes = .error e →
      ((bench_workload fns re key target target_host dtype layout remote schedule
        idx w rng).1).countP isCorrectnessCall = 0 ∧ ((bench_workload fns re key target target_host dtype layout remote schedule
        idx w rng).1).countP isSuccessLine = 0)
    ∧ (∀ e, re.tvmBuild = .ok () →
      (remote = false ∨ (re.exportLib = .ok () ∧ re.upload = .ok () ∧ re.load_module = .ok ())) →
      (re.invokeRes = .ok () ∨ w.warmupCount = 0) →
      re.time_evaluator = .error e →
      ((bench_workload fns re key target target_host dtype layout remote schedule
        idx w rng).1).countP isCorrectnessCall = 0 ∧ ((bench_workload fns re key target target_host dtype layout remote schedule
        idx w rng).1).countP isSuccessLine = 0) := by
  have hsb : (("standard" : String) == "depthwise") = false := by decide
  have hdb : (("depthwise" : String) == "depthwise") = true := by decide
  refine ⟨?_, ?_, ?_, ?_, ?_⟩
  · intro cost hb hch hin ht
    simp only [bench_workload]
    rw [hg]; dsimp only []; rw [hos]; dsimp only []
    cases hco : re.correctnessRes with
    | ok u =>
      cases u
      rw [build_and_run_success_eq hb hch hin ht hco]
      dsimp only []
      by_cases hm : (schedule == "manual") = true <;>
        first
          | rw [if_pos hm]
          | rw [if_neg hm]
      all_goals
        cases hdw : w.depthwise <;> cases hrem : remote <;>
        simp [List.countP_append, List.countP_cons, List.countP_replicate,
        isCorrectnessCall, isSuccessLine, hsb, hdb, hdw]
    | error e2 =>
      rw [build_and_run_corrfail_eq hb hch hin ht hco]
      dsimp only []
      by_cases hm : (schedule == "manual") = true <;>
        first
          | rw [if_pos hm]
          | rw [if_neg hm]
      all_goals
        cases hdw : w.depthwise <;> cases hrem : remote <;>
        simp [List.countP_append, List.countP_cons, List.countP_replicate,
        isCorrectnessCall, isSuccessLine, hsb, hdb, hdw]
  · intro e hb
    simp only [bench_workload]
    rw [hg]; dsimp only []; rw [hos]; dsimp only []
    rw [build_and_run_buildfail_eq hb]
    dsimp only []
    by_cases hm : (schedule == "manual") = true <;>
      first
        | rw [if_pos hm]
        | rw [if_neg hm]
    all_goals simp [List.countP_append, List.countP_cons, List.countP_replicate,
        isCorrectnessCall, isSuccessLine]
  · intro e hb hrm hfail
    simp only [bench_workload]
    rw [hg]; dsimp only []; rw [hos]; dsimp only []
    rcases hfail with he | ⟨he, hu⟩ | ⟨he, hu, hl⟩
    · rw [build_and_run_exportfail_eq hb hrm he]
      dsimp only []
      by_cases hm : (schedule == "manual") = true <;>
        first
          | rw [if_pos hm]
          | rw [if_neg hm]
      all_goals simp [List.countP_append, List.countP_cons, List.countP_replicate,
        isCorrectnessCall, isSuccessLine]
    · rw [build_and_run_uploadfail_eq hb hrm he hu]
      dsimp only []
      by_cases hm : (schedule == "manual") = true <;>
        first
          | rw [if_pos hm]
          | rw [if_neg hm]
      all_goals simp [List.countP_append, List.countP_cons, List.countP_replicate,
        isCorrectnessCall, isSuccessLine]
    · rw [build_and_run_loadfail_eq hb hrm he hu hl]
      dsimp only []
      by_cases hm : (schedule == "manual") = true <;>
        first
          | rw [if_pos hm]
          | rw [if_neg hm]
      all_goals simp [List.countP_append, List.countP_cons, List.countP_replicate,
        isCorrectnessCall, isSuccessLine]
  · intro e hb hch hwu hi
    simp only [bench_workload]
    rw [hg]; dsimp only []; rw [hos]; dsimp only []
    rw [build_and_run_invokefail_eq hb hch hwu hi]
    dsimp only []
    by_cases hm : (schedule == "manual") = true <;>
      first
        | rw [if_pos hm]
        | rw [if_neg hm]
    all_goals
      cases hrem : remote <;> simp [List.countP_append, List.countP_cons, List.countP_replicate,
        isCorrectnessCall, isSuccessLine]
  · intro e hb hch hin ht
    simp only [bench_workload]
    rw [hg]; dsimp only []; rw [hos]; dsimp only []
    rw [build_and_run_timefail_eq hb hch hin ht]
    dsimp only []
    by_cases hm : (schedule == "manual") = true <;>
      first
        | rw [if_pos hm]
        | rw [if_neg hm]
    all_goals
      cases hrem : remote <;> simp [List.countP_append, List.countP_cons, List.countP_replicate,
        isCorrectnessCall, isSuccessLine]


/-- Witness for C5 at a concrete int8 NCHW run: one correctness call, made
with the int32 (promoted) zero-initialized output buffer and the workload's
(non-depthwise) flag. -/
theorem C5_correctness_called_once_after_success_witness :
    ((bench_workload simpleFuns okRun "android" "llvm" "llvm-host" ⟨"int8", "int8"⟩
        "NCHW" false "auto" 0 sampleW 0).1).countP isCorrectnessCall = 1
    ∧ Event.correctness 32 64 3 1 1
        ⟨BufData.random 0, "int8", [1, 32, 56, 56]⟩
        ⟨BufData.random 1, "int8", [64, 32, 3, 3]⟩
        ⟨BufData.zeros, "int32", [1, 8, 56, 56]⟩ "int8" "NCHW" false
      ∈ (bench_workload simpleFuns okRun "android" "llvm" "llvm-host" ⟨"int8", "int8"⟩
          "NCHW" false "auto" 0 sampleW 0).1 :=
  have h := (C5_correctness_called_once_after_success simpleFuns okRun "android" "llvm"
    "llvm-host" ⟨"int8", "int8"⟩ "NCHW" false "auto" 0 sampleW 0
    ⟨[1, 8, 56, 56], "int32"⟩ ⟨0⟩ 56 rfl rfl).1 5 rfl (Or.inl rfl) (Or.inl rfl) rfl
  ⟨h.1, h.2.2⟩


/-- C10: for every workload whose schedule construction succeeds, exactly
one device-buffer binding happens, in which the output buffer is a freshly
allocated all-zeros array whose shape and dtype come from the constructed
convolution output (so int8 inputs get an int32 zero tensor), while only
the input and filter buffers hold random data; every kernel invocation uses
exactly these buffers, and no invocation happens before the binding. -/
theorem C10_output_buffer_zeroed_fresh (fns : ExtFuns) (re : RunExt)
    (key target target_host : String) (dtype : DataType) (layout : String)
    (remote : Bool) (schedule : String) (idx : Nat) (w : Workload) (rng : Nat)
    (conv : Tensor) (ts : Sched)
    (hg : get_conv_ts re.topi
        ⟨(fns.get_input_and_filter_shape layout w.space w.input_channel
            w.output_channel w.kernel w.depthwise).1, dtype.tvm_type⟩
        ⟨(fns.get_input_and_filter_shape layout w.space w.input_channel
            w.output_channel w.kernel w.depthwise).2, dtype.tvm_type⟩
        w.stride w.pad layout dtype.tvm_type w.depthwise = .ok (conv, ts)) :
    ((bench_workload fns re key target target_host dtype layout remote schedule
        idx w rng).1).countP isBindBuffers = 1
    ∧ (∀ j i f o, Event.bindBuffers j i f o ∈ (bench_workload fns re key target target_host dtype layout remote schedule
        idx w rng).1 →
        j = idx
        ∧ i = ⟨BufData.random rng, dtype.np_type, (fns.get_input_and_filter_shape layout w.space w.input_channel
            w.output_channel w.kernel w.depthwise).1⟩
        ∧ f = ⟨BufData.random (rng + 1), dtype.np_type, (fns.get_input_and_filter_shape layout w.space w.input_channel
            w.output_channel w.kernel w.depthwise).2⟩
        ∧ o = ⟨BufData.zeros, conv.dtype, conv.shape⟩)
    ∧ (∀ i f o, Event.invoke i f o ∈ (bench_workload fns re key target target_host dtype layout remote schedule
        idx w rng).1 →
        i = ⟨BufData.random rng, dtype.np_type, (fns.get_input_and_filter_shape layout w.space w.input_channel
            w.output_channel w.kernel w.depthwise).1⟩
        ∧ f = ⟨BufData.random (rng + 1), dtype.np_type, (fns.get_input_and_filter_shape layout w.space w.input_channel
            w.output_channel w.kernel w.depthwise).2⟩
        ∧ o = ⟨BufData.zeros, conv.dtype, conv.shape⟩)
    ∧ (((bench_workload fns re key target target_host dtype layout remote schedule
        idx w rng).1).takeWhile (fun ev => ! isBindBuffers ev)).countP isInvoke = 0 := by
  refine ⟨?_, ?_, fun i f o hev => bench_workload_invoke_args hg hev, ?_⟩
  · simp only [bench_workload]
    rw [hg]
    dsimp only []
    by_cases hm : (schedule == "manual") = true <;>
      first
        | rw [if_pos hm]
        | rw [if_neg hm]
    all_goals repeat' split
    all_goals
      simp [List.countP_append, List.countP_cons, isBindBuffers,
        build_and_run_counts.2.2.2.1]
  · intro j i f o hev
    simp only [bench_workload] at hev
    rw [hg] at hev
    dsimp only [] at hev
    by_cases hm : (schedule == "manual") = true <;>
      first
        | rw [if_pos hm] at hev
        | rw [if_neg hm] at hev
    all_goals repeat' split at hev
    all_goals simp at hev
    all_goals
      first
        | (exact absurd (build_and_run_aux_events hev).2.2.2.1 (by simp [isBindBuffers]))
        | (simp [hev.1, hev.2.1, hev.2.2.1, hev.2.2.2]; done)
        | (rcases hev with hev | hev
           · simp [hev.1, hev.2.1, hev.2.2.1, hev.2.2.2]; done
           · exact absurd (build_and_run_aux_events hev).2.2.2.1 (by simp [isBindBuffers]))
  · simp only [bench_workload]
    rw [hg]
    dsimp only []
    by_cases hm : (schedule == "manual") = true <;>
      first
        | rw [if_pos hm]
        | rw [if_neg hm]
    all_goals repeat' split
    all_goals
      simp [List.takeWhile_cons, List.countP_cons, isBindBuffers, isInvoke,
        List.cons_append]

/-- Witness for C10 at a concrete int8 NCHW run: the single binding carries
random input/filter draws and the int32 all-zeros output of the conv
shape. -/
theorem C10_output_buffer_zeroed_fresh_witness :
    ((bench_workload simpleFuns okRun "android" "llvm" "llvm-host" ⟨"int8", "int8"⟩
        "NCHW" false "auto" 0 sampleW 0).1).countP isBindBuffers = 1
    ∧ (0 : Nat) = 0
      ∧ (⟨BufData.random 0, "int8", [1, 32, 56, 56]⟩ : NDArray)
          = ⟨BufData.random 0, "int8", [1, 32, 56, 56]⟩
      ∧ (⟨BufData.random 1, "int8", [64, 32, 3, 3]⟩ : NDArray)
          = ⟨BufData.random 1, "int8", [64, 32, 3, 3]⟩
      ∧ (⟨BufData.zeros, "int32", [1, 8, 56, 56]⟩ : NDArray)
          = ⟨BufData.zeros, "int32", [1, 8, 56, 56]⟩ :=
  have h := C10_output_buffer_zeroed_fresh simpleFuns okRun "android" "llvm" "llvm-host"
    ⟨"int8", "int8"⟩ "NCHW" false "auto" 0 sampleW 0 ⟨[1, 8, 56, 56], "int32"⟩ ⟨0⟩ rfl
  ⟨h.1, h.2.1 0 ⟨BufData.random 0, "int8", [1, 32, 56, 56]⟩
    ⟨BufData.random 1, "int8", [64, 32, 3, 3]⟩
    ⟨BufData.zeros, "int32", [1, 8, 56, 56]⟩ (by decide)⟩


/-- Counterexample for C9: a depthwise workload whose schedule construction
fails is logged with the hardcoded label `standard` (not its actual phase)
on a line whose format string carries no stride and no pad field — so not
every failure prints the full parameter set with the actual phase. -/
theorem C9_failure_lines_counterexample :
    sampleDW.depthwise = true
    ∧ Event.printLine (LogLine.scheduleSkip "standard" "llvm" "float32" "NCHW"
        [1, 32, 28, 28] [32, 32, 3, 3])
      ∈ (bench_workload simpleFuns dwFailRun "android" "llvm" "llvm-host"
          ⟨"float32", "float32"⟩ "NCHW" false "auto" 0 sampleDW 0).1
    ∧ claimC9_full_context (LogLine.scheduleSkip "standard" "llvm" "float32" "NCHW"
        [1, 32, 28, 28] [32, 32, 3, 3]) = false
    ∧ lineLabel (LogLine.scheduleSkip "standard" "llvm" "float32" "NCHW"
        [1, 32, 28, 28] [32, 32, 3, 3]) = "standard"
    ∧ "standard" ≠ "depthwise" := by decide

/-- C9 (amended): only build-failure lines print the full configuration
context (target, dtype, layout, stride, pad, shapes) with the workload's
actual phase; schedule-failure lines are always labeled `standard` whatever
the phase and omit stride and pad, and run-failure lines carry the actual
phase but also omit stride and pad. -/
theorem C9_failure_lines_content (fns : ExtFuns) (re : RunExt)
    (key target target_host : String) (dtype : DataType) (layout : String)
    (remote : Bool) (schedule : String) (idx : Nat) (w : Workload) (rng : Nat) :
    (∀ e, get_conv_ts re.topi
        ⟨(fns.get_input_and_filter_shape layout w.space w.input_channel
            w.output_channel w.kernel w.depthwise).1, dtype.tvm_type⟩
        ⟨(fns.get_input_and_filter_shape layout w.space w.input_channel
            w.output_channel w.kernel w.depthwise).2, dtype.tvm_type⟩
        w.stride w.pad layout dtype.tvm_type w.depthwise = .error e →
      Event.printExc e ∈ (bench_workload fns re key target target_host dtype layout remote schedule
        idx w rng).1
      ∧ Event.printLine (LogLine.scheduleSkip "standard" target dtype.tvm_type layout
          (fns.get_input_and_filter_shape layout w.space w.input_channel
            w.output_channel w.kernel w.depthwise).1
          (fns.get_input_and_filter_shape layout w.space w.input_channel
            w.output_channel w.kernel w.depthwise).2) ∈ (bench_workload fns re key target target_host dtype layout remote schedule
        idx w rng).1
      ∧ claimC9_full_context (LogLine.scheduleSkip "standard" target dtype.tvm_type
          layout
          (fns.get_input_and_filter_shape layout w.space w.input_channel
            w.output_channel w.kernel w.depthwise).1
          (fns.get_input_and_filter_shape layout w.space w.input_channel
            w.output_channel w.kernel w.depthwise).2) = false
      ∧ lineLabel (LogLine.scheduleSkip "standard" target dtype.tvm_type layout
          (fns.get_input_and_filter_shape layout w.space w.input_channel
            w.output_channel w.kernel w.depthwise).1
          (fns.get_input_and_filter_shape layout w.space w.input_channel
            w.output_channel w.kernel w.depthwise).2) = "standard")
    ∧ (∀ conv ts os e, get_conv_ts re.topi
        ⟨(fns.get_input_and_filter_shape layout w.space w.input_channel
            w.output_channel w.kernel w.depthwise).1, dtype.tvm_type⟩
        ⟨(fns.get_input_and_filter_shape layout w.space w.input_channel
            w.output_channel w.kernel w.depthwise).2, dtype.tvm_type⟩
        w.stride w.pad layout dtype.tvm_type w.depthwise = .ok (conv, ts) →
      output_space_of layout conv.shape = .ok os →
      re.tvmBuild = .error e →
      Event.printLine (LogLine.buildFail (if w.depthwise then "depthwise" else "standard") target dtype.np_type layout
          w.stride w.pad
          (fns.get_input_and_filter_shape layout w.space w.input_channel
            w.output_channel w.kernel w.depthwise).1
          (fns.get_input_and_filter_shape layout w.space w.input_channel
            w.output_channel w.kernel w.depthwise).2) ∈ (bench_workload fns re key target target_host dtype layout remote schedule
        idx w rng).1
      ∧ claimC9_full_context (LogLine.buildFail (if w.depthwise then "depthwise" else "standard") target dtype.np_type layout
          w.stride w.pad
          (fns.get_input_and_filter_shape layout w.space w.input_channel
            w.output_channel w.kernel w.depthwise).1
          (fns.get_input_and_filter_shape layout w.space w.input_channel
            w.output_channel w.kernel w.depthwise).2) = true
      ∧ lineLabel (LogLine.buildFail (if w.depthwise then "depthwise" else "standard") target dtype.np_type layout
          w.stride w.pad
          (fns.get_input_and_filter_shape layout w.space w.input_channel
            w.output_channel w.kernel w.depthwise).1
          (fns.get_input_and_filter_shape layout w.space w.input_channel
            w.output_channel w.kernel w.depthwise).2) = (if w.depthwise then "depthwise" else "standard"))
    ∧ (∀ conv ts os e, get_conv_ts re.topi
        ⟨(fns.get_input_and_filter_shape layout w.space w.input_channel
            w.output_channel w.kernel w.depthwise).1, dtype.tvm_type⟩
        ⟨(fns.get_input_and_filter_shape layout w.space w.input_channel
            w.output_channel w.kernel w.depthwise).2, dtype.tvm_type⟩
        w.stride w.pad layout dtype.tvm_type w.depthwise = .ok (conv, ts) →
      output_space_of layout conv.shape = .ok os →
      (build_and_run re (if w.depthwise then "depthwise" else "standard") idx
          ⟨(fns.get_input_and_filter_shape layout w.space w.input_channel
            w.output_channel w.kernel w.depthwise).1, dtype.tvm_type⟩
          ⟨(fns.get_input_and_filter_shape layout w.space w.input_channel
            w.output_channel w.kernel w.depthwise).2, dtype.tvm_type⟩
          w.kernel w.space w.input_channel w.output_channel w.stride w.pad layout
          ⟨BufData.random rng, dtype.np_type,
            (fns.get_input_and_filter_shape layout w.space w.input_channel
            w.output_channel w.kernel w.depthwise).1⟩
          ⟨BufData.random (rng + 1), dtype.np_type,
            (fns.get_input_and_filter_shape layout w.space w.input_channel
            w.output_channel w.kernel w.depthwise).2⟩
          ⟨BufData.zeros, conv.dtype, conv.shape⟩ ts conv target target_host
          w.warmupCount w.runCount
          (fns.get_num_ops os w.input_channel w.output_channel w.kernel w.depthwise)
          (schedule == "manual") remote).2 = some e →
      Event.printLine (LogLine.runSkip (if w.depthwise then "depthwise" else "standard") target dtype.tvm_type layout
          (fns.get_input_and_filter_shape layout w.space w.input_channel
            w.output_channel w.kernel w.depthwise).1
          (fns.get_input_and_filter_shape layout w.space w.input_channel
            w.output_channel w.kernel w.depthwise).2) ∈ (bench_workload fns re key target target_host dtype layout remote schedule
        idx w rng).1
      ∧ claimC9_full_context (LogLine.runSkip (if w.depthwise then "depthwise" else "standard") target dtype.tvm_type layout
          (fns.get_input_and_filter_shape layout w.space w.input_channel
            w.output_channel w.kernel w.depthwise).1
          (fns.get_input_and_filter_shape layout w.space w.input_channel
            w.output_channel w.kernel w.depthwise).2) = false
      ∧ lineLabel (LogLine.runSkip (if w.depthwise then "depthwise" else "standard") target dtype.tvm_type layout
          (fns.get_input_and_filter_shape layout w.space w.input_channel
            w.output_channel w.kernel w.depthwise).1
          (fns.get_input_and_filter_shape layout w.space w.input_channel
            w.output_channel w.kernel w.depthwise).2) = (if w.depthwise then "depthwise" else "standard")) := by
  refine ⟨?_, ?_, ?_⟩
  · intro e hgE
    refine ⟨?_, ?_, by simp [claimC9_full_context], by simp [lineLabel]⟩ <;>
      · simp only [bench_workload]
        rw [hgE]
        by_cases hm : (schedule == "manual") = true <;>
          first
            | rw [if_pos hm]
            | rw [if_neg hm]
        all_goals simp
  · intro conv ts os e hg hos hb
    refine ⟨?_, by simp [claimC9_full_context], by simp [lineLabel]⟩
    simp only [bench_workload]
    rw [hg]
    dsimp only []
    rw [hos]
    dsimp only []
    rw [build_and_run_buildfail_eq hb]
    dsimp only []
    by_cases hm : (schedule == "manual") = true <;>
      first
        | rw [if_pos hm]
        | rw [if_neg hm]
    all_goals simp
  · intro conv ts os e hg hos hbr
    refine ⟨?_, by simp [claimC9_full_context], by simp [lineLabel]⟩
    simp only [bench_workload]
    rw [hg]
    dsimp only []
    rw [hos]
    dsimp only []
    rw [hbr]
    by_cases hm : (schedule == "manual") = true <;>
      first
        | rw [if_pos hm]
        | rw [if_neg hm]
    all_goals simp

/-- Witness for C9 (amended) at a concrete build failure: the build-fail
line with full context and the actual depthwise phase is printed. -/
theorem C9_failure_lines_content_witness :
    Event.printLine (LogLine.buildFail "depthwise" "llvm" "float32" "NHWC" 2 1
        [1, 32, 28, 28] [32, 32, 3, 3])
      ∈ (bench_workload simpleFuns buildFailRun "android" "llvm" "llvm-host"
          ⟨"float32", "float32"⟩ "NHWC" false "auto" 0 sampleDW 0).1 :=
  ((C9_failure_lines_content simpleFuns buildFailRun "android" "llvm" "llvm-host"
      ⟨"float32", "float32"⟩ "NHWC" false "auto" 0 sampleDW 0).2.1
    ⟨[1, 28, 28, 8], "float32"⟩ ⟨4⟩ 28 "codegen error" rfl rfl rfl).1

end Caffe2TvmBench
